import Mathlib

/-!
A shallow embedding of pushpin's proxy session core
(`src/proxy/src/proxysession.cpp`, class `ProxySession::Private`).

The C++ class is a single-threaded, signal-driven state machine.  We model it
as a state record (`Session`, mirroring the fields of `Private`) together with
one Lean function per slot / method.  Each handler takes the session state and
the data the external world supplies at that callback (what `readBody`
returns, whether `isFinished()` holds, the route-map lookup result, ...) and
returns the new state plus the list of externally observable actions
(`Output`) the handler performs, in program order.

External collaborators (`ZhttpRequest`, `RequestSession`, `DomainMap`, `Jwt`,
Qt containers) are not part of the translated source file; their interaction
is abstracted as handler inputs / outputs exactly where the translated code
calls them.  Byte arrays are lists of naturals, `QByteArray`/`QString` values
that are only compared or concatenated are Lean `String`s.

Assertion failures (`assert`) abort the process; they are modelled by an
`aborted` flag that freezes the machine.  After the session emits one of its
terminal signals (`finishedForAccept`, `finishedByPassthrough`) its owner
destroys it (spec §3 lifecycle); this is modelled by a `destroyed` flag that
likewise freezes the machine.
-/

namespace ProxySessionModel

/-- Byte strings (QByteArray contents) are modelled as lists of naturals. -/
abbrev Bytes := List Nat

/-- MAX_ACCEPT_REQUEST_BODY from proxysession.cpp. -/
def MAX_ACCEPT_REQUEST_BODY : Nat := 100000

/-- MAX_ACCEPT_RESPONSE_BODY from proxysession.cpp. -/
def MAX_ACCEPT_RESPONSE_BODY : Nat := 100000

/-- MAX_INITIAL_BUFFER from proxysession.cpp. -/
def MAX_INITIAL_BUFFER : Nat := 100000

/-- MAX_STREAM_BUFFER from proxysession.cpp. -/
def MAX_STREAM_BUFFER : Nat := 100000

/-- One HTTP header: (name, value). -/
abbrev Header := String × String

/-- ASCII-insensitive lowering of a header name. -/
def lowerStr (s : String) : String := String.mk (s.toList.map Char.toLower)

/-- Modelled from the spec: the header container (`HttpHeaders`, not in the
translated source) matches names case-insensitively and keeps order and
duplicates (spec §3).  `get` returns the value of the first header whose name
matches, or the empty string. -/
def headersGet (hs : List Header) (name : String) : String :=
  match hs.find? (fun p => lowerStr p.1 == lowerStr name) with
  | some p => p.2
  | none => ""

/-- Modelled from the spec: `HttpHeaders::removeAll`, case-insensitive name
match. -/
def headersRemoveAll (hs : List Header) (name : String) : List Header :=
  hs.filter (fun p => !(lowerStr p.1 == lowerStr name))

/-- Modelled from the spec: `HttpHeaders::contains`, case-insensitive name
match. -/
def headersContains (hs : List Header) (name : String) : Bool :=
  hs.any (fun p => lowerStr p.1 == lowerStr name)

/-- Modelled from the spec: the value list collected by
`HttpHeaders::takeAll`, in order. -/
def headersValues (hs : List Header) (name : String) : List String :=
  (hs.filter (fun p => lowerStr p.1 == lowerStr name)).map (fun p => p.2)

/-- `contentType.indexOf(';')` followed by `contentType.mid(0, at)`
(proxysession.cpp lines 595-597): truncate the value at the first `;`,
byte-for-byte, with no trimming or case folding. -/
def truncAtSemi (s : String) : String :=
  match s.toList.findIdx? (fun c => c == ';') with
  | some i => String.mk (s.toList.take i)
  | none => s

/-- Outcome of `Jwt::decode(token, key)` as inspected by `validate_token`.
`Jwt` is outside the translated source; what `validate_token` looks at is
(a) whether the decode produced a valid value, (b) whether it is map-typed,
and (c) the `int` that `claim.value("exp").toInt()` produces (0 when the
entry is absent or not numeric). -/
inductive DecodeResult
  | invalid
  | notMap
  | mapClaim (expVal : Int)
deriving DecidableEq

/-- `validate_token` (proxysession.cpp lines 55-68), parametrised by the
decode outcome and by the current epoch second
(`QDateTime::currentDateTimeUtc().toTime_t()` cast to `int`). -/
def validate_token (claimObj : DecodeResult) (now : Int) : Bool :=
  match claimObj with
  | .invalid => false
  | .notMap => false
  | .mapClaim e =>
    if e ≤ 0 ∨ now ≥ e then false
    else true

/-- `ZhttpRequest::ServerState` fields copied by `rs_paused`
(proxysession.cpp lines 774-777). -/
structure ServerState where
  inSeq : Nat
  outSeq : Nat
  outCredits : Int
  userData : Nat
deriving DecidableEq

/-- The per-client data the session reads off a `RequestSession`:
`rid()`, `isHttps()`, `peerAddress()`, `autoCrossOrigin()`,
`jsonpCallback()` and `request()->serverState()`.  `peerAddress` is kept as
its string rendering, `userData` as an opaque tag. -/
structure ClientInfo where
  rid : String × String
  isHttps : Bool
  peerAddress : String
  autoCrossOrigin : Bool
  jsonpCallback : String
  serverState : ServerState
deriving DecidableEq

/-- `ProxySession::Private::SessionItem::State`. -/
inductive SIState
  | WaitingForResponse
  | Responding
  | Responded
  | Errored
  | Pausing
  | Paused
deriving DecidableEq

/-- `ProxySession::Private::SessionItem`: one attached client. -/
structure SessionItem where
  info : ClientInfo
  state : SIState
  bytesToWrite : Int
deriving DecidableEq

/-- `XffRule` (xffrule.h interface as used here): `truncate` (negative means
unlimited) and `append`. -/
structure XffRule where
  truncate : Int
  append : Bool
deriving DecidableEq

/-- `DomainMap::Target` as used by `tryNextTarget`. -/
structure Target where
  host : String
  port : Nat
  ssl : Bool
  trusted : Bool
  insecure : Bool
deriving DecidableEq

/-- `DomainMap::Entry` as used by `add` (field `prefix` of the source is
spelled `pfx` here because `prefix` is a Lean keyword). -/
structure RouteEntry where
  pfx : String
  targets : List Target
  sigIss : String
  sigKey : String
deriving DecidableEq

/-- `HttpRequestData`: method, URI (only the host is consulted in this file),
headers and body. -/
structure HttpRequestData where
  method : String
  uriHost : String
  headers : List Header
  body : Bytes
deriving DecidableEq

/-- `HttpResponseData`: code, reason, headers and body. -/
structure HttpResponseData where
  code : Int
  reason : String
  headers : List Header
  body : Bytes
deriving DecidableEq

/-- `ProxySession::Private::State`. -/
inductive PState
  | Stopped
  | Requesting
  | Accepting
  | Responding
deriving DecidableEq

/-- `AcceptData::Request`: one handoff stub per paused client
(fields as filled in by `rs_paused`, proxysession.cpp lines 768-778). -/
structure AcceptRequest where
  rid : String × String
  https : Bool
  peerAddress : String
  autoCrossOrigin : Bool
  jsonpCallback : String
  inSeq : Nat
  outSeq : Nat
  outCredits : Int
  userData : Nat
deriving DecidableEq

/-- `AcceptData`, the handoff record emitted with `finishedForAccept`.
`acceptdata.h` is not part of the translated source; the fields below are the
ones `rs_paused` fills in (lines 762-788), `chanPfx` standing for the source
field `channelPrefix`.  The last two fields are modelled from the spec:
spec §6 says the opaque inspect-data record set via `setInspectData` is
"forwarded through to the handoff", so the record is given a slot for it
(`haveInspectData`, and the opaque tag `inspectData`, defaulting to
false / 0 when not filled in). -/
structure AcceptData where
  requests : List AcceptRequest
  requestData : HttpRequestData
  haveResponse : Bool
  response : HttpResponseData
  chanPfx : String
  haveInspectData : Bool
  inspectData : Nat
deriving DecidableEq

/-- The externally observable actions a handler performs, in program order:
calls into client sessions, calls into the upstream request, and the Qt
signals the session emits. -/
inductive Output
  | respondError (rid : String × String) (code : Nat) (reason : String) (message : String)
  | respondCannotAccept (rid : String × String)
  | startResponse (rid : String × String) (code : Int) (reason : String) (headers : List Header)
  | writeResponseBody (rid : String × String) (body : Bytes)
  | endResponseBody (rid : String × String)
  | pauseClient (rid : String × String)
  | calledTryNextTarget
  | createUpstream (h : Nat)
  | startUpstream (h : Nat) (method : String) (scheme : String) (host : String) (port : Nat)
  | writeUpstreamBody (h : Nat) (body : Bytes)
  | endUpstreamBody (h : Nat)
  | destroyUpstream (h : Nat)
  | readUpstreamBody (h : Nat) (maxSize : Nat)
  | addNotAllowed
  | requestSessionDestroyed (rid : String × String)
  | finishedByPassthrough
  | finishedForAccept (adata : AcceptData)
  | assertFailed
deriving DecidableEq

/-- The fields of `ProxySession::Private`, plus bookkeeping:
`liveHandles` tracks every upstream request object created and not yet
destroyed (`zhttpRequest` is the member pointer, holding the id of the
current one), `hasInRequest` is whether the member `inRequest` is non-null,
`aborted` records an assertion failure, `destroyed` records that a terminal
signal was emitted and the owner destroyed the session.
`chanPfx` stands for the source field `channelPrefix`.
`buffering` is left uninitialised by the C++ constructor and first assigned
(`true`) in the first `add`; it is unread before then, so the initial state
sets it `true`. -/
structure Session where
  state : PState
  isHttps : Bool
  chanPfx : String
  targets : List Target
  zhttpRequest : Option Nat
  liveHandles : List Nat
  nextHandleId : Nat
  addAllowed : Bool
  haveInspectData : Bool
  idata : Nat
  acceptTypes : List String
  sessionItems : List SessionItem
  requestData : HttpRequestData
  responseData : HttpResponseData
  requestBody : Bytes
  responseBody : Bytes
  initialRequestBody : Bytes
  requestBytesToWrite : Int
  total : Nat
  buffering : Bool
  passToUpstream : Bool
  hasInRequest : Bool
  defaultSigIss : String
  defaultSigKey : String
  defaultUpstreamKey : String
  useXForwardedProtocol : Bool
  xffRule : XffRule
  xffTrustedRule : XffRule
  aborted : Bool
  destroyed : Bool
deriving DecidableEq

/-- An assertion failure: the process aborts; the machine freezes. -/
def abortSession (s : Session) (outs : List Output) : Session × List Output :=
  ({ s with aborted := true }, outs ++ [Output.assertFailed])

/-- The loop body of `pendingWrites` over a client-entry list. -/
def pendingWritesItems (items : List SessionItem) : Bool :=
  items.any (fun si => decide (si.bytesToWrite ≠ -1) && decide (0 < si.bytesToWrite))

/-- `pendingWrites` (lines 321-330): some client entry has a non-sentinel,
positive outstanding byte count. -/
def pendingWrites (s : Session) : Bool :=
  pendingWritesItems s.sessionItems

/-- `sessionItemsBySession.value(rs)`: clients are identified by their
request id. -/
def findItem (items : List SessionItem) (rid : String × String) : Option SessionItem :=
  items.find? (fun si => si.info.rid == rid)

/-- Update the client entry with the given request id. -/
def updateItem (items : List SessionItem) (rid : String × String)
    (f : SessionItem → SessionItem) : List SessionItem :=
  items.map (fun si => if si.info.rid == rid then f si else si)

/-- `rejectAll(code, reason, errorMessage)` (lines 415-428): every
non-Errored entry (asserted to be WaitingForResponse) becomes Responded with
sentinel byte count and receives `respondError`. -/
def rejectAll (s : Session) (code : Nat) (reason message : String) :
    Session × List Output :=
  if s.sessionItems.all
      (fun si => decide (si.state = SIState.Errored ∨ si.state = SIState.WaitingForResponse)) then
    ({ s with sessionItems := s.sessionItems.map (fun si =>
          if si.state = SIState.Errored then si
          else { si with state := SIState.Responded, bytesToWrite := -1 }) },
      (s.sessionItems.filter (fun si => !(decide (si.state = SIState.Errored)))).map
        (fun si => Output.respondError si.info.rid code reason message))
  else
    abortSession s []

/-- `cannotAcceptAll` (lines 400-413): like `rejectAll` but calling
`respondCannotAccept`. -/
def cannotAcceptAll (s : Session) : Session × List Output :=
  if s.sessionItems.all
      (fun si => decide (si.state = SIState.Errored ∨ si.state = SIState.WaitingForResponse)) then
    ({ s with sessionItems := s.sessionItems.map (fun si =>
          if si.state = SIState.Errored then si
          else { si with state := SIState.Responded, bytesToWrite := -1 }) },
      (s.sessionItems.filter (fun si => !(decide (si.state = SIState.Errored)))).map
        (fun si => Output.respondCannotAccept si.info.rid))
  else
    abortSession s []

/-- `destroyAll` (lines 430-446): only valid in Responding; every Responding
entry becomes Responded with sentinel byte count and gets
`endResponseBody`. -/
def destroyAll (s : Session) : Session × List Output :=
  if s.state = PState.Responding then
    if s.sessionItems.all (fun si => !(decide (si.state = SIState.WaitingForResponse))) then
      ({ s with sessionItems := s.sessionItems.map (fun si =>
            if si.state = SIState.Responding then
              { si with state := SIState.Responded, bytesToWrite := -1 }
            else si) },
        (s.sessionItems.filter (fun si => decide (si.state = SIState.Responding))).map
          (fun si => Output.endResponseBody si.info.rid))
    else abortSession s []
  else abortSession s []

/-- `tryNextTarget` (lines 332-375).  `inFinished` is the value of
`inRequest->isInputFinished()` (consulted only when `hasInRequest`).  A fresh
upstream request object gets the next handle id; note that the previous
handle, if any, is neither destroyed nor removed from `liveHandles` here. -/
def tryNextTarget (s : Session) (inFinished : Bool) : Session × List Output :=
  match s.targets with
  | [] =>
    let r := rejectAll s 502 "Bad Gateway" "Error while proxying to origin."
    (r.1, Output.calledTryNextTarget :: r.2)
  | t :: rest =>
    let scheme := if t.ssl then "https" else "http"
    let h := s.nextHandleId
    let s1 := { s with targets := rest, zhttpRequest := some h,
                       liveHandles := s.liveHandles ++ [h], nextHandleId := h + 1 }
    let outs1 := [Output.calledTryNextTarget, Output.createUpstream h,
                  Output.startUpstream h s1.requestData.method scheme t.host t.port]
    let s2 := if s1.initialRequestBody ≠ [] then
        { s1 with requestBytesToWrite :=
            s1.requestBytesToWrite + (s1.initialRequestBody.length : Int) }
      else s1
    let outs2 := if s1.initialRequestBody ≠ [] then
        outs1 ++ [Output.writeUpstreamBody h s1.initialRequestBody]
      else outs1
    if !s2.hasInRequest || inFinished then (s2, outs2 ++ [Output.endUpstreamBody h])
    else (s2, outs2)

/-- `tryRequestRead` (lines 377-398).  `buf` is what `inRequest->readBody()`
returns.  Dereferencing a null `inRequest` or `zhttpRequest` is modelled as
an abort. -/
def tryRequestRead (s : Session) (buf : Bytes) : Session × List Output :=
  if !s.hasInRequest then abortSession s []
  else if buf = [] then (s, [])
  else
    let s1 :=
      if s.buffering then
        if MAX_ACCEPT_REQUEST_BODY < s.requestBody.length + buf.length then
          { s with requestBody := [], buffering := false }
        else { s with requestBody := s.requestBody ++ buf }
      else s
    match s1.zhttpRequest with
    | some h =>
      ({ s1 with requestBytesToWrite := s1.requestBytesToWrite + (buf.length : Int) },
        [Output.writeUpstreamBody h buf])
    | none => abortSession s1 []

/-- `checkIncomingResponseFinished` (lines 516-562).  `finished` is the value
of `zhttpRequest->isFinished()`. -/
def checkIncomingResponseFinished (s : Session) (finished : Bool) :
    Session × List Output :=
  if finished then
    if !s.buffering && pendingWrites s then (s, [])
    else
      match s.zhttpRequest with
      | none => abortSession s []
      | some h =>
        let s1 := { s with zhttpRequest := none,
                           liveHandles := s.liveHandles.filter (fun x => !(x == h)) }
        let outs1 := [Output.destroyUpstream h]
        if s1.state = PState.Accepting then
          ({ s1 with sessionItems :=
                s1.sessionItems.map (fun si => { si with state := SIState.Pausing }) },
            outs1 ++ s1.sessionItems.map (fun si => Output.pauseClient si.info.rid))
        else
          if s1.sessionItems.all (fun si => !(decide (si.state = SIState.WaitingForResponse))) then
            let s2 := { s1 with sessionItems := s1.sessionItems.map (fun (si : SessionItem) =>
                  if si.state = SIState.Responding then { si with state := SIState.Responded }
                  else si) }
            let outs2 := outs1 ++
              (s1.sessionItems.filter (fun si => decide (si.state = SIState.Responding))).map
                (fun si => Output.endResponseBody si.info.rid)
            if s2.addAllowed then
              ({ s2 with addAllowed := false }, outs2 ++ [Output.addNotAllowed])
            else (s2, outs2)
          else abortSession s1 outs1
  else (s, [])

/-- `tryResponseRead` (lines 449-513).  `buf` is what
`zhttpRequest->readBody(MAX_STREAM_BUFFER)` returns, `finished` the value of
`zhttpRequest->isFinished()` afterwards. -/
def tryResponseRead (s : Session) (buf : Bytes) (finished : Bool) :
    Session × List Output :=
  if !s.buffering && pendingWrites s then (s, [])
  else
    match s.zhttpRequest with
    | none => abortSession s []
    | some h =>
      let outs0 := [Output.readUpstreamBody h MAX_STREAM_BUFFER]
      if buf ≠ [] then
        let s1 := { s with total := s.total + buf.length }
        if s1.state = PState.Accepting then
          if MAX_ACCEPT_RESPONSE_BODY < s1.responseBody.length + buf.length then
            let r := rejectAll s1 502 "Bad Gateway" "GRIP instruct response too large."
            (r.1, outs0 ++ r.2)
          else
            let s2 := { s1 with responseBody := s1.responseBody ++ buf }
            let r := checkIncomingResponseFinished s2 finished
            (r.1, outs0 ++ r.2)
        else
          let wasAllowed := s1.addAllowed
          let s2 : Session :=
            if s1.buffering then
              if MAX_INITIAL_BUFFER < s1.responseBody.length + buf.length then
                { s1 with responseBody := [], buffering := false, addAllowed := false }
              else { s1 with responseBody := s1.responseBody ++ buf }
            else s1
          if s2.sessionItems.all (fun si => !(decide (si.state = SIState.WaitingForResponse))) then
            let s3 := { s2 with sessionItems := s2.sessionItems.map (fun si =>
                  if si.state = SIState.Responding then
                    { si with bytesToWrite := si.bytesToWrite + (buf.length : Int) }
                  else si) }
            let outsW := (s2.sessionItems.filter (fun si => decide (si.state = SIState.Responding))).map
                  (fun si => Output.writeResponseBody si.info.rid buf)
            let outsN := if wasAllowed && !s3.addAllowed then [Output.addNotAllowed] else []
            let r := checkIncomingResponseFinished s3 finished
            (r.1, outs0 ++ outsW ++ outsN ++ r.2)
          else abortSession s2 outs0
      else
        let r := checkIncomingResponseFinished s finished
        (r.1, outs0 ++ r.2)

/-- `ZhttpRequest::ErrorCondition` as consulted by `zhttpRequest_error`:
the four conditions named there plus a stand-in for every other member of
the enum (the `default` branch). -/
inductive ErrorCondition
  | errGeneric
  | errConnect
  | errConnectTimeout
  | errTls
  | errLengthRequired
deriving DecidableEq

/-- The slot `zhttpRequest_readyRead` (lines 580-644).  `code`, `reason` and
`hdrs` are the response line and headers the upstream request reports, `buf`
what `readBody` returns (`MAX_INITIAL_BUFFER` cap in Requesting,
`MAX_STREAM_BUFFER` inside `tryResponseRead` otherwise), `finished` the
value of `zhttpRequest->isFinished()`. -/
def zhttpReadyReadHandler (s : Session) (code : Int) (reason : String)
    (hdrs : List Header) (buf : Bytes) (finished : Bool) : Session × List Output :=
  if s.state = PState.Requesting then
    match s.zhttpRequest with
    | none => abortSession s []
    | some h =>
      let outs0 := [Output.readUpstreamBody h MAX_INITIAL_BUFFER]
      let rb := s.responseBody ++ buf
      let s1 := { s with
        responseData := { code := code, reason := reason, headers := hdrs, body := [] },
        responseBody := rb,
        total := s.total + rb.length }
      let contentType := truncAtSemi (headersGet hdrs "Content-Type")
      if !s1.passToUpstream && s1.acceptTypes.contains contentType then
        if !s1.buffering then
          let r := rejectAll s1 502 "Bad Gateway" "Request too large to accept GRIP instruct."
          (r.1, outs0 ++ r.2)
        else
          let s2 := { s1 with state := PState.Accepting }
          let r := checkIncomingResponseFinished s2 finished
          (r.1, outs0 ++ r.2)
      else
        let hs0 := headersRemoveAll (headersRemoveAll (headersRemoveAll
          (headersRemoveAll hdrs "Connection") "Keep-Alive") "Content-Encoding")
          "Transfer-Encoding"
        let hs1 := if !(headersContains hs0 "Content-Length")
                      && !(headersContains hs0 "Transfer-Encoding") then
            hs0 ++ [("Transfer-Encoding", "chunked")]
          else hs0
        let s2 := { s1 with state := PState.Responding,
                            responseData := { s1.responseData with headers := hs1 } }
        let startOuts := s2.sessionItems.flatMap (fun si =>
            Output.startResponse si.info.rid code reason hs1 ::
            (if rb ≠ [] then [Output.writeResponseBody si.info.rid rb] else []))
        let s3 := { s2 with sessionItems := s2.sessionItems.map (fun (si : SessionItem) =>
            { si with state := SIState.Responding,
                      bytesToWrite := si.bytesToWrite +
                        (if rb ≠ [] then (rb.length : Int) else 0) }) }
        let r := checkIncomingResponseFinished s3 finished
        (r.1, outs0 ++ startOuts ++ r.2)
  else
    if s.state = PState.Accepting ∨ s.state = PState.Responding then
      tryResponseRead s buf finished
    else
      abortSession s []

/-- The slot `zhttpRequest_error` (lines 655-689).  `e` is
`zhttpRequest->errorCondition()`, `inFinished` is consulted if a retry
reaches `tryNextTarget`. -/
def zhttpErrorHandler (s : Session) (e : ErrorCondition) (inFinished : Bool) :
    Session × List Output :=
  if s.state = PState.Requesting ∨ s.state = PState.Accepting then
    match e with
    | .errLengthRequired =>
      rejectAll s 411 "Length Required" "Must provide Content-Length header."
    | .errConnect | .errConnectTimeout | .errTls =>
      if s.state = PState.Requesting then tryNextTarget s inFinished
      else abortSession s []
    | _ =>
      rejectAll s 502 "Bad Gateway" "Error while proxying to origin."
  else if s.state = PState.Responding then destroyAll s
  else (s, [])

/-- The slot `rs_bytesWritten` (lines 691-709).  `buf` / `finished` are the
upstream read environment in case the drain resumes reading. -/
def rsBytesWrittenHandler (s : Session) (rid : String × String) (count : Nat)
    (buf : Bytes) (finished : Bool) : Session × List Output :=
  match findItem s.sessionItems rid with
  | none => abortSession s []
  | some si =>
    if si.bytesToWrite ≠ -1 ∧ si.bytesToWrite < (count : Int) then abortSession s []
    else
      let drained := updateItem s.sessionItems rid
        (fun x => { x with bytesToWrite := x.bytesToWrite - (count : Int) })
      let s1 := if si.bytesToWrite = -1 then s else { s with sessionItems := drained }
      if !s1.buffering && s1.zhttpRequest.isSome && !pendingWrites s1 then
        tryResponseRead s1 buf finished
      else (s1, [])

/-- The slot `rs_finished` (lines 711-736). -/
def rsFinishedHandler (s : Session) (rid : String × String) : Session × List Output :=
  match findItem s.sessionItems rid with
  | none => abortSession s []
  | some _ =>
    let outs := [Output.requestSessionDestroyed rid]
    let s1 := { s with sessionItems := s.sessionItems.filter (fun si => !(si.info.rid == rid)) }
    if s1.sessionItems = [] then
      ({ s1 with destroyed := true }, outs ++ [Output.finishedByPassthrough])
    else (s1, outs)

/-- The `AcceptData::Request` stub `rs_paused` builds for one client
(lines 768-778). -/
def mkAcceptRequest (si : SessionItem) : AcceptRequest :=
  { rid := si.info.rid
    https := si.info.isHttps
    peerAddress := si.info.peerAddress
    autoCrossOrigin := si.info.autoCrossOrigin
    jsonpCallback := si.info.jsonpCallback
    inSeq := si.info.serverState.inSeq
    outSeq := si.info.serverState.outSeq
    outCredits := si.info.serverState.outCredits
    userData := si.info.serverState.userData }

/-- `si->state = SessionItem::Paused` (line 748). -/
def markPaused (x : SessionItem) : SessionItem :=
  { x with state := SIState.Paused }

/-- The slot `rs_paused` (lines 738-794).  When every entry is Paused the
handoff record is built (the buffered bodies are moved out by
`BufferList::take`), `cleanup()` clears the entries, `finishedForAccept` is
emitted and the owner destroys the session. -/
def rsPausedHandler (s : Session) (rid : String × String) : Session × List Output :=
  match findItem s.sessionItems rid with
  | none => abortSession s []
  | some si =>
    if si.state ≠ SIState.Pausing then abortSession s []
    else
      let items := updateItem s.sessionItems rid markPaused
      if items.all (fun x => decide (x.state = SIState.Paused)) then
        let adata : AcceptData :=
          { requests := items.map mkAcceptRequest
            requestData := { s.requestData with body := s.requestBody }
            haveResponse := true
            response := { s.responseData with body := s.responseBody }
            chanPfx := s.chanPfx
            haveInspectData := false
            inspectData := 0 }
        ({ s with sessionItems := [], requestBody := [], responseBody := [],
                  destroyed := true },
          [Output.finishedForAccept adata])
      else ({ s with sessionItems := items }, [])

/-- The slot `rs_errorResponding` (lines 796-812). -/
def rsErrorRespondingHandler (s : Session) (rid : String × String) :
    Session × List Output :=
  match findItem s.sessionItems rid with
  | none => abortSession s []
  | some si =>
    if si.state = SIState.Errored then abortSession s []
    else
      let items := updateItem s.sessionItems rid
        (fun x => { x with state := SIState.Errored, bytesToWrite := -1 })
      ({ s with sessionItems := items }, [])

/-- The slot `inRequest_readyRead` (lines 565-571).  `buf` is what
`inRequest->readBody()` returns, `inFinished` the value of
`inRequest->isInputFinished()` afterwards. -/
def inReadyReadHandler (s : Session) (buf : Bytes) (inFinished : Bool) :
    Session × List Output :=
  let r := tryRequestRead s buf
  if r.1.aborted then r
  else if inFinished then
    match r.1.zhttpRequest with
    | some h => (r.1, r.2 ++ [Output.endUpstreamBody h])
    | none => abortSession r.1 r.2
  else r

/-- The slot `inRequest_error` (lines 573-578). -/
def inErrorHandler (s : Session) : Session × List Output :=
  rejectAll s 500 "Internal Server Error" "Primary shared request failed."

/-- The slot `zhttpRequest_bytesWritten` (lines 646-653). -/
def zhttpBytesWrittenHandler (s : Session) (count : Nat) (buf : Bytes) :
    Session × List Output :=
  let r := s.requestBytesToWrite - (count : Int)
  if r < 0 then abortSession s []
  else
    let s1 := { s with requestBytesToWrite := r }
    if r = 0 then tryRequestRead s1 buf else (s1, [])

/-- The client-session data consulted by `add`. -/
structure RsAdd where
  info : ClientInfo
  requestData : HttpRequestData
  isRetry : Bool
deriving DecidableEq

/-- The environment of one `add` call: the route-map lookup result, the
outcome of `validate_token` on the incoming `Grip-Sig` (the `Jwt` codec is
outside the translated source), the token `make_token` produces (empty on
failure), what `inRequest->readBody()` returns at attach time, and
`inRequest->isInputFinished()`. -/
structure AddEnv where
  entry : Option RouteEntry
  gripSigValid : Bool
  madeToken : String
  inBody : Bytes
  inFinished : Bool
deriving DecidableEq

/-- The `Grip-Sig` rewrite `add` performs when not passing to upstream
(lines 236-253): strip any incoming `Grip-Sig` and install the newly made
token when signing material is configured and `make_token` succeeded. -/
def applyGripSig (s4 : Session) (sigIss sigKey madeToken : String) (pass : Bool) : Session :=
  if !pass then
    let hsA := headersRemoveAll s4.requestData.headers "Grip-Sig"
    let hsB := if sigIss ≠ "" && sigKey ≠ "" && madeToken ≠ "" then
        hsA ++ [("Grip-Sig", madeToken)]
      else hsA
    { s4 with requestData := { s4.requestData with headers := hsB } }
  else s4

/-- The `X-Forwarded-Protocol` rewrite (lines 255-261). -/
def applyXfp (s5 : Session) : Session :=
  if s5.useXForwardedProtocol then
    let hsA := headersRemoveAll s5.requestData.headers "X-Forwarded-Protocol"
    let hsB := if s5.isHttps then hsA ++ [("X-Forwarded-Protocol", "https")] else hsA
    { s5 with requestData := { s5.requestData with headers := hsB } }
  else s5

/-- The `X-Forwarded-For` rewrite (lines 263-284): truncate the existing
value list per the applicable rule and append the peer address if asked. -/
def applyXff (s6 : Session) (pass : Bool) (peerAddress : String) : Session :=
  let xr := if pass then s6.xffTrustedRule else s6.xffRule
  let xffValues0 := headersValues s6.requestData.headers "X-Forwarded-For"
  let hsC := headersRemoveAll s6.requestData.headers "X-Forwarded-For"
  let xffValues1 := if 0 ≤ xr.truncate then
      xffValues0.drop ((xffValues0.length : Int) - xr.truncate).toNat
    else xffValues0
  let xffValues2 := if xr.append then xffValues1 ++ [peerAddress] else xffValues1
  let hsD := if xffValues2 ≠ [] then
      hsC ++ [("X-Forwarded-For", String.intercalate ", " xffValues2)]
    else hsC
  { s6 with requestData := { s6.requestData with headers := hsD } }

/-- On a non-retry, adopt the shared request and its readable body
(lines 293-296). -/
def attachShared (s7 : Session) (isRetry : Bool) (inBody : Bytes) : Session :=
  if !isRetry then
    { s7 with hasInRequest := true, requestBody := s7.requestBody ++ inBody }
  else s7

/-- The accept-request-body cap (lines 298-302): an oversized buffered body
is dropped and buffering switched off. -/
def capRequestBody (s9 : Session) : Session :=
  if MAX_ACCEPT_REQUEST_BODY < s9.requestBody.length then
    { s9 with requestBody := [], buffering := false }
  else s9

/-- The attach-time setup the first `add` performs once the route entry is
known (lines 210-302): adopt the route, apply the three header rewrites,
switch to Requesting with buffering on, adopt the shared request on a
non-retry, snapshot the initial request body and enforce the cap. -/
def addSetup (s2 : Session) (rs : RsAdd) (env : AddEnv) (entry : RouteEntry) : Session :=
  let sigIss := if entry.sigIss ≠ "" ∧ entry.sigKey ≠ "" then entry.sigIss
    else s2.defaultSigIss
  let sigKey := if entry.sigIss ≠ "" ∧ entry.sigKey ≠ "" then entry.sigKey
    else s2.defaultSigKey
  let s3 := { s2 with chanPfx := entry.pfx, targets := entry.targets }
  let gripToken := headersGet s3.requestData.headers "Grip-Sig"
  let pass := s3.defaultUpstreamKey ≠ "" && gripToken ≠ "" && env.gripSigValid
  let s4 := { s3 with passToUpstream := pass }
  let s5 := applyGripSig s4 sigIss sigKey env.madeToken pass
  let s6 := applyXff (applyXfp s5) pass rs.info.peerAddress
  let s7 := { s6 with state := PState.Requesting, buffering := true }
  let s8 := attachShared s7 rs.isRetry env.inBody
  let s9 := { s8 with initialRequestBody := s8.requestBody }
  capRequestBody s9

/-- `add(rs)` (lines 172-319). -/
def addHandler (s : Session) (rs : RsAdd) (env : AddEnv) : Session × List Output :=
  if !s.addAllowed then abortSession s []
  else
    let newItem : SessionItem :=
      { info := rs.info, state := SIState.WaitingForResponse, bytesToWrite := 0 }
    let s0 := { s with sessionItems := s.sessionItems ++ [newItem] }
    if s0.state = PState.Stopped then
      let strippedHeaders := headersRemoveAll (headersRemoveAll (headersRemoveAll
        (headersRemoveAll (headersRemoveAll rs.requestData.headers
          "Connection") "Keep-Alive") "Accept-Encoding") "Content-Encoding")
        "Transfer-Encoding"
      let s2 := { s0 with
        isHttps := rs.info.isHttps,
        requestBody := s0.requestBody ++ rs.requestData.body,
        requestData := { rs.requestData with body := [], headers := strippedHeaders } }
      match env.entry with
      | none =>
        rejectAll s2 502 "Bad Gateway" ("No route for host: " ++ rs.requestData.uriHost)
      | some entry =>
        tryNextTarget (addSetup s2 rs env entry) env.inFinished
    else if s0.state = PState.Requesting then (s0, [])
    else if s0.state = PState.Responding then
      let addBtw : Int := if s0.responseBody ≠ [] then (s0.responseBody.length : Int) else 0
      let caughtUp := updateItem s0.sessionItems rs.info.rid (fun x =>
        { x with state := SIState.Responding, bytesToWrite := x.bytesToWrite + addBtw })
      let s1 := { s0 with sessionItems := caughtUp }
      let outs := Output.startResponse rs.info.rid s0.responseData.code
          s0.responseData.reason s0.responseData.headers ::
        (if s0.responseBody ≠ [] then [Output.writeResponseBody rs.info.rid s0.responseBody]
         else [])
      (s1, outs)
    else (s0, [])

/-- The events the outside world can deliver to a session, each carrying the
data the corresponding handler reads from its collaborators. -/
inductive Event
  | add (rs : RsAdd) (env : AddEnv)
  | inReadyRead (buf : Bytes) (inFinished : Bool)
  | inError
  | zhttpReadyRead (code : Int) (reason : String) (headers : List Header)
      (buf : Bytes) (finished : Bool)
  | zhttpBytesWritten (count : Nat) (buf : Bytes)
  | zhttpError (e : ErrorCondition) (inFinished : Bool)
  | rsBytesWritten (rid : String × String) (count : Nat) (buf : Bytes) (finished : Bool)
  | rsFinished (rid : String × String)
  | rsPaused (rid : String × String)
  | rsErrorResponding (rid : String × String)
  | cannotAccept
  | setInspectData (d : Nat)
deriving DecidableEq

/-- One dispatch of the single-threaded reactor.  An aborted (assertion
failure) or destroyed session takes no further steps. -/
def step (s : Session) (ev : Event) : Session × List Output :=
  if s.aborted || s.destroyed then (s, [])
  else match ev with
  | .add rs env => addHandler s rs env
  | .inReadyRead buf fin => inReadyReadHandler s buf fin
  | .inError => inErrorHandler s
  | .zhttpReadyRead c r hs b f => zhttpReadyReadHandler s c r hs b f
  | .zhttpBytesWritten c b => zhttpBytesWrittenHandler s c b
  | .zhttpError e f => zhttpErrorHandler s e f
  | .rsBytesWritten rid c b f => rsBytesWrittenHandler s rid c b f
  | .rsFinished rid => rsFinishedHandler s rid
  | .rsPaused rid => rsPausedHandler s rid
  | .rsErrorResponding rid => rsErrorRespondingHandler s rid
  | .cannotAccept => cannotAcceptAll s
  | .setInspectData d => ({ s with haveInspectData := true, idata := d }, [])

/-- Run a session over a list of events, concatenating the outputs. -/
def run (s : Session) : List Event → Session × List Output
  | [] => (s, [])
  | ev :: evs =>
    let r := step s ev
    let r2 := run r.1 evs
    (r2.1, r.2 ++ r2.2)

/-- Empty request descriptor (default-constructed `HttpRequestData`). -/
def emptyRequestData : HttpRequestData :=
  { method := "", uriHost := "", headers := [], body := [] }

/-- Empty response descriptor (default-constructed `HttpResponseData`). -/
def emptyResponseData : HttpResponseData :=
  { code := 0, reason := "", headers := [], body := [] }

/-- A freshly constructed session (the `Private` constructor, lines 139-156),
after the configuration setters (`setDefaultSigKey`, `setDefaultUpstreamKey`,
`setUseXForwardedProtocol`, `setXffRules`) have run. -/
def initialSession (sigIss sigKey upstreamKey : String) (useXfp : Bool)
    (xff xffT : XffRule) : Session :=
  { state := PState.Stopped
    isHttps := false
    chanPfx := ""
    targets := []
    zhttpRequest := none
    liveHandles := []
    nextHandleId := 0
    addAllowed := true
    haveInspectData := false
    idata := 0
    acceptTypes := ["application/grip-instruct"]
    sessionItems := []
    requestData := emptyRequestData
    responseData := emptyResponseData
    requestBody := []
    responseBody := []
    initialRequestBody := []
    requestBytesToWrite := 0
    total := 0
    buffering := true
    passToUpstream := false
    hasInRequest := false
    defaultSigIss := sigIss
    defaultSigKey := sigKey
    defaultUpstreamKey := upstreamKey
    useXForwardedProtocol := useXfp
    xffRule := xff
    xffTrustedRule := xffT
    aborted := false
    destroyed := false }

/-- Whether an output is the `finishedForAccept` signal. -/
def isAcceptOut : Output → Bool
  | .finishedForAccept _ => true
  | _ => false

/-- Whether an output is one of the two terminal signals. -/
def isTerminalOut : Output → Bool
  | .finishedForAccept _ => true
  | .finishedByPassthrough => true
  | _ => false

/-- Number of `addNotAllowed` emissions in an output list. -/
def countAddNotAllowed (outs : List Output) : Nat :=
  outs.countP (fun o => decide (o = Output.addNotAllowed))

/-- An XFF rule that neither truncates nor appends. -/
def xffNone : XffRule := { truncate := -1, append := false }

/-- A session with no signing material, no upstream key, no XFF rewriting:
the simplest configuration. -/
def plainSession : Session := initialSession "" "" "" false xffNone xffNone

/-- Sample server-side protocol state for witness executions. -/
def sampleServerState : ServerState :=
  { inSeq := 3, outSeq := 5, outCredits := 100, userData := 11 }

/-- Sample client A for witness executions. -/
def clientA : ClientInfo :=
  { rid := ("zone", "A"), isHttps := true, peerAddress := "10.0.0.1",
    autoCrossOrigin := true, jsonpCallback := "cb", serverState := sampleServerState }

/-- Sample target for witness executions. -/
def targetOne : Target :=
  { host := "origin-a", port := 80, ssl := false, trusted := false, insecure := false }

/-- Second sample target for retry executions. -/
def targetTwo : Target :=
  { host := "origin-b", port := 8080, ssl := true, trusted := false, insecure := false }

/-- A route with a single target and no per-route signing material. -/
def routeOneTarget : RouteEntry :=
  { pfx := "chan-", targets := [targetOne], sigIss := "", sigKey := "" }

/-- A route with two targets, for retry executions. -/
def routeTwoTargets : RouteEntry :=
  { pfx := "chan-", targets := [targetOne, targetTwo], sigIss := "", sigKey := "" }

/-- Client A's add call: a small GET with a 2-byte buffered body and one more
byte already readable from the shared request, whose input is finished. -/
def rsAddA : RsAdd :=
  { info := clientA,
    requestData := { method := "GET", uriHost := "example.com", headers := [], body := [1, 2] },
    isRetry := false }

/-- Environment for client A's add against the given route. -/
def addEnvFor (e : RouteEntry) : AddEnv :=
  { entry := some e, gripSigValid := false, madeToken := "", inBody := [3], inFinished := true }

/-- Response headers announcing a GRIP instruct body. -/
def gripHeaders : List Header := [("Content-Type", "application/grip-instruct")]

/-- A complete GRIP-handoff execution: one client, the origin answers with a
grip-instruct response that arrives whole in one read, the client pauses. -/
def handoffEvents : List Event :=
  [Event.add rsAddA (addEnvFor routeOneTarget),
   Event.zhttpReadyRead 200 "OK" gripHeaders [7, 8, 9] true,
   Event.rsPaused ("zone", "A")]

example : (run plainSession handoffEvents).1.destroyed = true := by decide

example : ((run plainSession handoffEvents).2.any isAcceptOut) = true := by decide

example : countAddNotAllowed (run plainSession handoffEvents).2 = 0 := by decide

/-- The session state after client A attached against the single-target
route: state Requesting, upstream handle 0 live. -/
def requestingSession : Session :=
  (run plainSession [Event.add rsAddA (addEnvFor routeOneTarget)]).1

example : requestingSession.state = PState.Requesting := by decide

example : requestingSession.zhttpRequest = some 0 := by decide

/-! ### Structural lemmas about the handlers -/

/-- `checkIncomingResponseFinished` never changes the session-level state. -/
theorem checkIncoming_state (s : Session) (f : Bool) :
    (checkIncomingResponseFinished s f).1.state = s.state := by
  unfold checkIncomingResponseFinished abortSession
  split
  · split
    · rfl
    · split
      · rfl
      · dsimp only
        split
        · rfl
        · split
          · split <;> rfl
          · rfl
  · rfl

/-- What `rejectAll` does when, as asserted, every entry is
WaitingForResponse or Errored. -/
theorem rejectAll_spec (s : Session) (code : Nat) (reason message : String)
    (hitems : ∀ si ∈ s.sessionItems,
      si.state = SIState.WaitingForResponse ∨ si.state = SIState.Errored) :
    (rejectAll s code reason message).1.sessionItems =
        s.sessionItems.map (fun si =>
          if si.state = SIState.Errored then si
          else { si with state := SIState.Responded, bytesToWrite := -1 }) ∧
    (rejectAll s code reason message).2 =
        (s.sessionItems.filter (fun si => !(decide (si.state = SIState.Errored)))).map
          (fun si => Output.respondError si.info.rid code reason message) ∧
    (rejectAll s code reason message).1.state = s.state := by
  unfold rejectAll
  rw [if_pos]
  · exact ⟨rfl, rfl, rfl⟩
  · rw [List.all_eq_true]
    intro si hsi
    rcases hitems si hsi with h | h <;> simp [h]

/-- Each non-Errored entry's `respondError` call appears among `rejectAll`'s
actions. -/
theorem rejectAll_mem_out (s : Session) (code : Nat) (reason message : String)
    (si : SessionItem) (hsi : si ∈ s.sessionItems) (hne : si.state ≠ SIState.Errored)
    (hitems : ∀ x ∈ s.sessionItems,
      x.state = SIState.WaitingForResponse ∨ x.state = SIState.Errored) :
    Output.respondError si.info.rid code reason message ∈ (rejectAll s code reason message).2 := by
  rw [(rejectAll_spec s code reason message hitems).2.1]
  exact List.mem_map_of_mem _ (List.mem_filter.mpr ⟨hsi, by simp [hne]⟩)

/-- After `rejectAll`, every entry is Responded or Errored. -/
theorem rejectAll_item_state (s : Session) (code : Nat) (reason message : String)
    (si : SessionItem)
    (hsi : si ∈ (rejectAll s code reason message).1.sessionItems)
    (hitems : ∀ x ∈ s.sessionItems,
      x.state = SIState.WaitingForResponse ∨ x.state = SIState.Errored) :
    si.state = SIState.Responded ∨ si.state = SIState.Errored := by
  rw [(rejectAll_spec s code reason message hitems).1] at hsi
  obtain ⟨x, hx, rfl⟩ := List.mem_map.mp hsi
  by_cases hxe : x.state = SIState.Errored
  · simp [hxe]
  · simp [hxe]

/-- When the session is in Requesting, the grip branch is taken and
`buffering` is off, the readyRead handler reduces to a `rejectAll` with the
502 "Request too large to accept GRIP instruct." triple. -/
theorem readyRead_reject_eq
    (s : Session) (code : Int) (reason : String) (hdrs : List Header)
    (buf : Bytes) (finished : Bool) (h : Nat)
    (hreq : s.state = PState.Requesting)
    (hz : s.zhttpRequest = some h)
    (hp : s.passToUpstream = false)
    (hc : s.acceptTypes.contains (truncAtSemi (headersGet hdrs "Content-Type")) = true)
    (hb : s.buffering = false) :
    zhttpReadyReadHandler s code reason hdrs buf finished =
      ((rejectAll { s with
          responseData := { code := code, reason := reason, headers := hdrs, body := [] },
          responseBody := s.responseBody ++ buf,
          total := s.total + (s.responseBody ++ buf).length }
        502 "Bad Gateway" "Request too large to accept GRIP instruct.").1,
       Output.readUpstreamBody h MAX_INITIAL_BUFFER ::
         (rejectAll { s with
            responseData := { code := code, reason := reason, headers := hdrs, body := [] },
            responseBody := s.responseBody ++ buf,
            total := s.total + (s.responseBody ++ buf).length }
          502 "Bad Gateway" "Request too large to accept GRIP instruct.").2) := by
  have hmem : truncAtSemi (headersGet hdrs "Content-Type") ∈ s.acceptTypes := by
    simpa using hc
  simp [zhttpReadyReadHandler, hreq, hz, hp, hmem, hb]

/-! ### Claim theorems -/

/-- C9: `validate_token(token, key)` returns true iff decoding the token
yields a map-typed claim whose `exp` entry is a positive integer strictly
greater than the current epoch second; in every other case (invalid decode,
non-map claim, `exp ≤ 0`, or `exp ≤ now`) it returns false. -/
theorem C9_validate_token_iff (d : DecodeResult) (now : Int) :
    validate_token d now = true ↔
      ∃ e : Int, d = DecodeResult.mapClaim e ∧ 0 < e ∧ now < e := by
  cases d with
  | invalid => simp [validate_token]
  | notMap => simp [validate_token]
  | mapClaim e =>
    constructor
    · intro hv
      simp only [validate_token] at hv
      split at hv
      · exact absurd hv Bool.false_ne_true
      · rename_i hcond
        exact ⟨e, rfl, by omega, by omega⟩
    · rintro ⟨e', he', h1, h2⟩
      injection he' with he''
      subst he''
      simp only [validate_token]
      rw [if_neg (by omega)]

/-- C1: on an upstream readyRead in state Requesting the session truncates
the response Content-Type at the first semicolon; if `passToUpstream` is
false and that bare content-type is a member of the accept set, then: with
`buffering` still true the session enters Accepting, and with `buffering`
false every non-Errored client entry receives
`respondError(502, "Bad Gateway", "Request too large to accept GRIP
instruct.")` and becomes Responded; in every other case (`passToUpstream`
true, or content-type not in the set) the session enters Responding. -/
theorem C1_grip_accept_decision
    (s : Session) (code : Int) (reason : String) (hdrs : List Header)
    (buf : Bytes) (finished : Bool) (h : Nat)
    (hreq : s.state = PState.Requesting)
    (hz : s.zhttpRequest = some h)
    (hitems : ∀ si ∈ s.sessionItems,
      si.state = SIState.WaitingForResponse ∨ si.state = SIState.Errored) :
    (¬(s.passToUpstream = false ∧
        s.acceptTypes.contains (truncAtSemi (headersGet hdrs "Content-Type")) = true) →
      (zhttpReadyReadHandler s code reason hdrs buf finished).1.state = PState.Responding) ∧
    (s.passToUpstream = false →
      s.acceptTypes.contains (truncAtSemi (headersGet hdrs "Content-Type")) = true →
      (s.buffering = true →
        (zhttpReadyReadHandler s code reason hdrs buf finished).1.state = PState.Accepting) ∧
      (s.buffering = false →
        (∀ si ∈ s.sessionItems, si.state ≠ SIState.Errored →
          Output.respondError si.info.rid 502 "Bad Gateway"
              "Request too large to accept GRIP instruct."
            ∈ (zhttpReadyReadHandler s code reason hdrs buf finished).2) ∧
        ∀ si ∈ (zhttpReadyReadHandler s code reason hdrs buf finished).1.sessionItems,
          si.state = SIState.Responded ∨ si.state = SIState.Errored)) := by
  constructor
  · intro hno
    cases hp : s.passToUpstream with
    | true => simp [zhttpReadyReadHandler, hreq, hz, hp, checkIncoming_state]
    | false =>
      have hnmem : truncAtSemi (headersGet hdrs "Content-Type") ∉ s.acceptTypes := by
        intro hmm
        exact hno ⟨hp, by simpa using hmm⟩
      simp [zhttpReadyReadHandler, hreq, hz, hp, hnmem, checkIncoming_state]
  · intro hp hc
    have hmem : truncAtSemi (headersGet hdrs "Content-Type") ∈ s.acceptTypes := by
      simpa using hc
    constructor
    · intro hb
      simp [zhttpReadyReadHandler, hreq, hz, hp, hmem, hb, checkIncoming_state]
    · intro hb
      constructor
      · intro si hsi hne
        rw [readyRead_reject_eq s code reason hdrs buf finished h hreq hz hp hc hb]
        apply List.mem_cons_of_mem
        apply rejectAll_mem_out
        · exact hsi
        · exact hne
        · exact hitems
      · intro si hsi
        rw [readyRead_reject_eq s code reason hdrs buf finished h hreq hz hp hc hb] at hsi
        exact rejectAll_item_state _ _ _ _ si hsi hitems

/-- C1 witness: a concrete Requesting session receiving a grip-instruct
response while buffering enters Accepting. -/
theorem C1_witness :
    requestingSession.state = PState.Requesting ∧
    (zhttpReadyReadHandler requestingSession 200 "OK" gripHeaders [7] true).1.state
      = PState.Accepting := by
  refine ⟨by decide, ?_⟩
  exact ((C1_grip_accept_decision requestingSession 200 "OK" gripHeaders [7] true 0
    (by decide) (by decide) (by decide)).2 (by decide) (by decide)).1 (by decide)

/-- C10: the accept-set membership test is exact byte-for-byte comparison of
the prefix part before the first semicolon: no case folding and no
whitespace trimming, so any bare content-type other than the exact bytes
`application/grip-instruct` (in particular case variants or a value with a
trailing space before the semicolon) sends the session to Responding, and
Accepting is reached only on the exact bytes. -/
theorem C10_accept_test_exact
    (s : Session) (code : Int) (reason : String) (hdrs : List Header)
    (buf : Bytes) (finished : Bool) (h : Nat)
    (hreq : s.state = PState.Requesting)
    (hz : s.zhttpRequest = some h)
    (hacc : s.acceptTypes = ["application/grip-instruct"]) :
    (truncAtSemi (headersGet hdrs "Content-Type") ≠ "application/grip-instruct" →
      (zhttpReadyReadHandler s code reason hdrs buf finished).1.state = PState.Responding) ∧
    ((zhttpReadyReadHandler s code reason hdrs buf finished).1.state = PState.Accepting →
      truncAtSemi (headersGet hdrs "Content-Type") = "application/grip-instruct") := by
  have hmain : truncAtSemi (headersGet hdrs "Content-Type") ≠ "application/grip-instruct" →
      (zhttpReadyReadHandler s code reason hdrs buf finished).1.state = PState.Responding := by
    intro hne
    have hnmem : truncAtSemi (headersGet hdrs "Content-Type") ∉ s.acceptTypes := by
      rw [hacc]
      simpa using hne
    cases hp : s.passToUpstream with
    | true => simp [zhttpReadyReadHandler, hreq, hz, hp, checkIncoming_state]
    | false => simp [zhttpReadyReadHandler, hreq, hz, hp, hnmem, checkIncoming_state]
  refine ⟨hmain, ?_⟩
  intro hA
  by_cases hct : truncAtSemi (headersGet hdrs "Content-Type") = "application/grip-instruct"
  · exact hct
  · rw [hmain hct] at hA
    exact absurd hA (by intro hcontr; exact PState.noConfusion hcontr)

/-- C10 witness: a case variant and a trailing-space variant of the
grip-instruct content type both send a concrete Requesting session to
Responding. -/
theorem C10_witness :
    (zhttpReadyReadHandler requestingSession 200 "OK"
      [("Content-Type", "Application/GRIP-Instruct")] [7] true).1.state
        = PState.Responding ∧
    (zhttpReadyReadHandler requestingSession 200 "OK"
      [("Content-Type", "application/grip-instruct ; charset=utf-8")] [7] true).1.state
        = PState.Responding := by
  constructor
  · exact (C10_accept_test_exact requestingSession 200 "OK"
      [("Content-Type", "Application/GRIP-Instruct")] [7] true 0
      (by decide) (by decide) (by decide)).1 (by decide)
  · exact (C10_accept_test_exact requestingSession 200 "OK"
      [("Content-Type", "application/grip-instruct ; charset=utf-8")] [7] true 0
      (by decide) (by decide) (by decide)).1 (by decide)

/-- The transient (connection-class) upstream error conditions. -/
def isTransientError : ErrorCondition → Bool
  | .errConnect | .errConnectTimeout | .errTls => true
  | _ => false

/-- `rejectAll` never invokes `tryNextTarget`. -/
theorem rejectAll_no_marker (s : Session) (code : Nat) (reason message : String) :
    Output.calledTryNextTarget ∉ (rejectAll s code reason message).2 := by
  unfold rejectAll abortSession
  split
  · intro hm
    obtain ⟨x, hx, hxx⟩ := List.mem_map.mp hm
    exact Output.noConfusion hxx
  · simp

/-- `destroyAll` never invokes `tryNextTarget`. -/
theorem destroyAll_no_marker (s : Session) :
    Output.calledTryNextTarget ∉ (destroyAll s).2 := by
  unfold destroyAll abortSession
  split
  · split
    · intro hm
      obtain ⟨x, hx, hxx⟩ := List.mem_map.mp hm
      exact Output.noConfusion hxx
    · simp
  · simp

/-- Every `tryNextTarget` call is visible in the action list. -/
theorem tryNextTarget_marker (s : Session) (fin : Bool) :
    Output.calledTryNextTarget ∈ (tryNextTarget s fin).2 := by
  unfold tryNextTarget
  split
  · dsimp only
    exact List.mem_cons_self _ _
  · dsimp only
    split <;> split <;> simp

/-- C3: an upstream error consumes another target (`tryNextTarget` runs
again) iff the state is Requesting and the condition is Connect,
ConnectTimeout or Tls — this first conjunct holds in EVERY session state
(Responding and Stopped included, whatever the client entries' states) with
no hypothesis; and, for the reject contents, over the waiting (non-Errored)
client entries: LengthRequired in Requesting/Accepting rejects all with 411
"Length Required"; any other non-transient error there rejects all with 502
"Bad Gateway" / "Error while proxying to origin."; and a transient error
with the target list exhausted rejects all with the same 502. -/
theorem C3_error_dispatch (s : Session) (e : ErrorCondition) (fin : Bool) :
    (Output.calledTryNextTarget ∈ (zhttpErrorHandler s e fin).2 ↔
      s.state = PState.Requesting ∧ isTransientError e = true) ∧
    ((∀ si ∈ s.sessionItems,
        si.state = SIState.WaitingForResponse ∨ si.state = SIState.Errored) →
      ((s.state = PState.Requesting ∨ s.state = PState.Accepting) →
        e = ErrorCondition.errLengthRequired →
        ∀ si ∈ s.sessionItems, si.state ≠ SIState.Errored →
          Output.respondError si.info.rid 411 "Length Required"
            "Must provide Content-Length header." ∈ (zhttpErrorHandler s e fin).2) ∧
      ((s.state = PState.Requesting ∨ s.state = PState.Accepting) →
        isTransientError e = false → e ≠ ErrorCondition.errLengthRequired →
        ∀ si ∈ s.sessionItems, si.state ≠ SIState.Errored →
          Output.respondError si.info.rid 502 "Bad Gateway"
            "Error while proxying to origin." ∈ (zhttpErrorHandler s e fin).2) ∧
      (s.state = PState.Requesting → isTransientError e = true → s.targets = [] →
        ∀ si ∈ s.sessionItems, si.state ≠ SIState.Errored →
          Output.respondError si.info.rid 502 "Bad Gateway"
            "Error while proxying to origin." ∈ (zhttpErrorHandler s e fin).2)) := by
  refine ⟨?_, fun hitems => ⟨?_, ?_, ?_⟩⟩
  · cases e <;> cases hst : s.state <;>
      simp [zhttpErrorHandler, abortSession, hst, isTransientError,
        rejectAll_no_marker, destroyAll_no_marker, tryNextTarget_marker]
  · rintro hst rfl si hsi hne
    have hred : zhttpErrorHandler s ErrorCondition.errLengthRequired fin =
        rejectAll s 411 "Length Required" "Must provide Content-Length header." := by
      rcases hst with hst | hst <;> simp [zhttpErrorHandler, hst]
    rw [hred]
    exact rejectAll_mem_out s 411 "Length Required"
      "Must provide Content-Length header." si hsi hne hitems
  · intro hst htr hne' si hsi hne
    have hred : zhttpErrorHandler s e fin =
        rejectAll s 502 "Bad Gateway" "Error while proxying to origin." := by
      cases e
      case errLengthRequired => exact absurd rfl hne'
      case errConnect => simp [isTransientError] at htr
      case errConnectTimeout => simp [isTransientError] at htr
      case errTls => simp [isTransientError] at htr
      case errGeneric => rcases hst with hst | hst <;> simp [zhttpErrorHandler, hst]
    rw [hred]
    exact rejectAll_mem_out s 502 "Bad Gateway"
      "Error while proxying to origin." si hsi hne hitems
  · intro hst htr htg si hsi hne
    have hred : zhttpErrorHandler s e fin = tryNextTarget s fin := by
      cases e
      case errGeneric => simp [isTransientError] at htr
      case errLengthRequired => simp [isTransientError] at htr
      all_goals simp [zhttpErrorHandler, hst]
    rw [hred]
    unfold tryNextTarget
    rw [htg]
    dsimp only
    apply List.mem_cons_of_mem
    exact rejectAll_mem_out s 502 "Bad Gateway"
      "Error while proxying to origin." si hsi hne hitems

/-- A mid-response session: state Responding, upstream handle live, its one
client entry already Responding (the spec's mid-response error scenario). -/
def respondingSession : Session :=
  { plainSession with
      state := PState.Responding
      zhttpRequest := some 0
      liveHandles := [0]
      nextHandleId := 1
      sessionItems := [{ info := clientA, state := SIState.Responding, bytesToWrite := 0 }] }

/-- C3 witness: on a concrete Requesting session a ConnectTimeout error
consumes another target; on a mid-response (Responding state, Responding
client) session the same error consumes none; and a Generic error in
Requesting rejects the waiting client with 502. -/
theorem C3_witness :
    (requestingSession.state = PState.Requesting ∧
      Output.calledTryNextTarget ∈
        (zhttpErrorHandler requestingSession ErrorCondition.errConnectTimeout true).2) ∧
    (respondingSession.state = PState.Responding ∧
      Output.calledTryNextTarget ∉
        (zhttpErrorHandler respondingSession ErrorCondition.errConnectTimeout true).2) ∧
    Output.respondError ("zone", "A") 502 "Bad Gateway" "Error while proxying to origin."
      ∈ (zhttpErrorHandler requestingSession ErrorCondition.errGeneric true).2 := by
  refine ⟨⟨by decide, ?_⟩, ⟨by decide, ?_⟩, ?_⟩
  · exact (C3_error_dispatch requestingSession
      ErrorCondition.errConnectTimeout true).1.mpr ⟨by decide, by decide⟩
  · intro hm
    exact absurd ((C3_error_dispatch respondingSession
      ErrorCondition.errConnectTimeout true).1.mp hm).1 (by decide)
  · exact ((C3_error_dispatch requestingSession ErrorCondition.errGeneric
      true).2 (by decide)).2.1 (Or.inl (by decide)) (by decide) (by decide)
      { info := clientA, state := SIState.WaitingForResponse, bytesToWrite := 0 }
      (by decide) (by decide)

/-- Events of a retry execution: client A attaches against a two-target
route, then the first connect attempt times out. -/
def retryEvents : List Event :=
  [Event.add rsAddA (addEnvFor routeTwoTargets),
   Event.zhttpError ErrorCondition.errConnectTimeout true]

/-- C4 counterexample: after one retry the session holds TWO live upstream
request objects (the errored handle 0 was never destroyed or disconnected
before handle 1 was created), refuting "at most one upstream request handle
is live at any time" and "the previous handle is released before the next is
created". -/
theorem C4_counterexample :
    (run plainSession retryEvents).1.liveHandles = [0, 1] ∧
    (run plainSession retryEvents).1.zhttpRequest = some 1 ∧
    (run plainSession retryEvents).1.aborted = false ∧
    Output.destroyUpstream 0 ∉ (run plainSession retryEvents).2 := by
  refine ⟨by decide, by decide, by decide, by decide⟩

/-- C4 amended: on each transient-error retry in Requesting the previously
created upstream handle is NOT destroyed or disconnected before the next
handle is created; the session merely repoints its member to the fresh
handle while the old object stays alive (parented to the session, freed
only at teardown), so the set of live handles grows by one and the member
names the newest handle. -/
theorem C4_retry_keeps_old_handle
    (s : Session) (e : ErrorCondition) (fin : Bool) (h : Nat)
    (t : Target) (rest : List Target)
    (hst : s.state = PState.Requesting)
    (htr : isTransientError e = true)
    (hz : s.zhttpRequest = some h)
    (hl : h ∈ s.liveHandles)
    (ht : s.targets = t :: rest) :
    (zhttpErrorHandler s e fin).1.liveHandles = s.liveHandles ++ [s.nextHandleId] ∧
    (zhttpErrorHandler s e fin).1.zhttpRequest = some s.nextHandleId ∧
    h ∈ (zhttpErrorHandler s e fin).1.liveHandles ∧
    Output.destroyUpstream h ∉ (zhttpErrorHandler s e fin).2 := by
  have hred : zhttpErrorHandler s e fin = tryNextTarget s fin := by
    cases e
    case errGeneric => simp [isTransientError] at htr
    case errLengthRequired => simp [isTransientError] at htr
    all_goals simp [zhttpErrorHandler, hst]
  rw [hred]
  unfold tryNextTarget
  rw [ht]
  dsimp only
  refine ⟨?_, ?_, ?_, ?_⟩
  · split <;> split <;> rfl
  · split <;> split <;> rfl
  · have hm : h ∈ s.liveHandles ++ [s.nextHandleId] :=
      List.mem_append_left _ hl
    split <;> split <;> exact hm
  · split <;> split <;> simp

/-- C4 witness for the amended statement: the two-target session retries and
keeps handle 0 alive while handle 1 becomes current. -/
theorem C4_witness :
    ((run plainSession [Event.add rsAddA (addEnvFor routeTwoTargets)]).1.state
        = PState.Requesting) ∧
    (zhttpErrorHandler (run plainSession [Event.add rsAddA (addEnvFor routeTwoTargets)]).1
        ErrorCondition.errConnectTimeout true).1.liveHandles = [0, 1] := by
  refine ⟨by decide, ?_⟩
  have hc := C4_retry_keeps_old_handle
    (run plainSession [Event.add rsAddA (addEnvFor routeTwoTargets)]).1
    ErrorCondition.errConnectTimeout true 0 targetTwo []
    (by decide) (by decide) (by decide) (by decide) (by decide)
  rw [hc.1]
  decide

/-- Whenever `tryResponseRead` is not blocked by back-pressure and a handle
exists, it issues the `readBody(MAX_STREAM_BUFFER)` call. -/
theorem tryResponseRead_reads (s : Session) (buf : Bytes) (finished : Bool) (h : Nat)
    (hnp : (!s.buffering && pendingWrites s) = false)
    (hz : s.zhttpRequest = some h) :
    Output.readUpstreamBody h MAX_STREAM_BUFFER ∈ (tryResponseRead s buf finished).2 := by
  unfold tryResponseRead
  simp only [hnp, hz]
  repeat' split
  all_goals simp_all [abortSession]

/-- The session after one client's outstanding-byte counter is decremented
by `count` (the drain step of `rs_bytesWritten`). -/
def drainedSession (s : Session) (rid : String × String) (count : Nat) : Session :=
  { s with sessionItems :=
      updateItem s.sessionItems rid (fun x =>
        { x with bytesToWrite := x.bytesToWrite - (count : Int) }) }

/-- C6: while `buffering` is false and `pendingWrites()` is true, no
`readBody` is issued on the upstream request (`tryResponseRead` returns
immediately with no state change and no action); and on a client drain that
turns the predicate `!buffering && pendingWrites()` from true to false
while an upstream handle exists, reading resumes: `rs_bytesWritten` invokes
`tryResponseRead` on the drained state, which issues
`readBody(MAX_STREAM_BUFFER)`. -/
theorem C6_back_pressure
    (s : Session) (buf : Bytes) (finished : Bool)
    (rid : String × String) (count : Nat) (si : SessionItem) (h : Nat) :
    (s.buffering = false → pendingWrites s = true →
      tryResponseRead s buf finished = (s, [])) ∧
    (findItem s.sessionItems rid = some si →
      si.bytesToWrite ≠ -1 → (count : Int) ≤ si.bytesToWrite →
      s.buffering = false →
      s.zhttpRequest = some h →
      pendingWrites (drainedSession s rid count) = false →
      rsBytesWrittenHandler s rid count buf finished =
        tryResponseRead (drainedSession s rid count) buf finished ∧
      Output.readUpstreamBody h MAX_STREAM_BUFFER
        ∈ (rsBytesWrittenHandler s rid count buf finished).2) := by
  constructor
  · intro hb hp
    unfold tryResponseRead
    simp [hb, hp]
  · intro hfi hne hcount hb hz hpost
    have hnotlt : ¬(si.bytesToWrite ≠ -1 ∧ si.bytesToWrite < (count : Int)) := by
      intro hcontra
      omega
    have hpost' : pendingWritesItems (updateItem s.sessionItems rid (fun x =>
        { x with bytesToWrite := x.bytesToWrite - (count : Int) })) = false := hpost
    have hred : rsBytesWrittenHandler s rid count buf finished =
        tryResponseRead (drainedSession s rid count) buf finished := by
      unfold rsBytesWrittenHandler
      rw [hfi]
      dsimp only
      rw [if_neg hnotlt, if_neg hne]
      split
      · rfl
      · rename_i hcontra
        exfalso
        apply hcontra
        simp [pendingWrites, hb, hz, hpost']
    refine ⟨hred, ?_⟩
    rw [hred]
    apply tryResponseRead_reads
    · have hnb : (drainedSession s rid count).buffering = false := hb
      simp [hnb, hpost]
    · exact hz

/-- A streaming session past the initial buffer: one Responding client with
4 outstanding bytes, buffering off, upstream handle 0 live. -/
def drainSession : Session :=
  { plainSession with
      state := PState.Responding
      zhttpRequest := some 0
      liveHandles := [0]
      nextHandleId := 1
      buffering := false
      sessionItems := [{ info := clientA, state := SIState.Responding, bytesToWrite := 4 }] }

/-- C6 witness: the concrete streaming session blocks the read while 4 bytes
are outstanding, and resumes reading on the drain of those 4 bytes. -/
theorem C6_witness :
    (drainSession.buffering = false ∧ pendingWrites drainSession = true ∧
      tryResponseRead drainSession [9] false = (drainSession, [])) ∧
    Output.readUpstreamBody 0 MAX_STREAM_BUFFER ∈
      (rsBytesWrittenHandler drainSession ("zone", "A") 4 [9] false).2 := by
  constructor
  · exact ⟨by decide, by decide,
      (C6_back_pressure drainSession [9] false ("zone", "A") 4
        { info := clientA, state := SIState.Responding, bytesToWrite := 4 } 0).1
        (by decide) (by decide)⟩
  · exact ((C6_back_pressure drainSession [9] false ("zone", "A") 4
      { info := clientA, state := SIState.Responding, bytesToWrite := 4 } 0).2
      (by decide) (by decide) (by decide) (by decide) (by decide) (by decide)).2

/-- Number of terminal-signal emissions in an output list. -/
def countTerminal (outs : List Output) : Nat :=
  outs.countP isTerminalOut

/-- Reachability invariant: while the session is Stopped, `buffering` is
(vacuously) true, no shared request is attached and no upstream request
exists. -/
def SInv (s : Session) : Prop :=
  s.state = PState.Stopped →
    (s.buffering = true ∧ s.hasInRequest = false ∧ s.zhttpRequest = none)

/-- Composing two "the emission count equals the monotone flag flip"
segments. -/
theorem flip_compose (a1 a2 a3 : Bool) (c1 c2 : Nat)
    (m2 : a2 = true → a1 = true) (m3 : a3 = true → a2 = true)
    (h1 : c1 ≤ if a1 = true ∧ a2 = false then 1 else 0)
    (h2 : c2 ≤ if a2 = true ∧ a3 = false then 1 else 0) :
    c1 + c2 ≤ if a1 = true ∧ a3 = false then 1 else 0 := by
  cases a1 <;> cases a2 <;> cases a3 <;> simp_all <;> omega

/-- The bookkeeping facts every handler except `rs_finished` / `rs_paused`
satisfies: the reachability invariant is preserved, `buffering` and
`addAllowed` only ever turn off, each `addNotAllowed` emission coincides
with an `addAllowed` flip, no terminal signal is emitted and `destroyed` is
untouched. -/
def HFacts (s s' : Session) (outs : List Output) : Prop :=
  (SInv s → SInv s') ∧
  (SInv s → s'.buffering = true → s.buffering = true) ∧
  (s'.addAllowed = true → s.addAllowed = true) ∧
  countAddNotAllowed outs ≤ (if s.addAllowed = true ∧ s'.addAllowed = false then 1 else 0) ∧
  s'.destroyed = s.destroyed ∧
  countTerminal outs = 0 ∧
  outs.any isAcceptOut = false

/-- `HFacts` for an unchanged session with no output. -/
theorem HFacts_id (s : Session) : HFacts s s [] := by
  refine ⟨fun h => h, fun _ h => h, fun h => h, ?_, rfl, rfl, rfl⟩
  simp [countAddNotAllowed]

/-- `HFacts` composes along sequential execution. -/
theorem HFacts_comp {s s1 s2 : Session} {o1 o2 : List Output}
    (h1 : HFacts s s1 o1) (h2 : HFacts s1 s2 o2) :
    HFacts s s2 (o1 ++ o2) := by
  obtain ⟨i1, b1, a1, c1, d1, t1, x1⟩ := h1
  obtain ⟨i2, b2, a2, c2, d2, t2, x2⟩ := h2
  refine ⟨fun h => i2 (i1 h), fun h hb => b1 h (b2 (i1 h) hb), fun h => a1 (a2 h),
    ?_, d2.trans d1, ?_, ?_⟩
  · rw [countAddNotAllowed, List.countP_append]
    exact flip_compose s.addAllowed s1.addAllowed s2.addAllowed _ _ a1 a2 c1 c2
  · rw [countTerminal, List.countP_append]
    rw [countTerminal] at t1 t2
    omega
  · rw [List.any_append, x1, x2]
    rfl

/-- The output lists the handlers build besides `addNotAllowed` and terminal
signals contribute nothing to the three output counters. -/
def NeutralOut (o : Output) : Prop :=
  (o = Output.addNotAllowed → False) ∧ isTerminalOut o = false ∧ isAcceptOut o = false

/-- An output list of neutral elements has zero counters. -/
theorem neutral_counts (outs : List Output) (h : ∀ o ∈ outs, NeutralOut o) :
    countAddNotAllowed outs = 0 ∧ countTerminal outs = 0 ∧ outs.any isAcceptOut = false := by
  refine ⟨?_, ?_, ?_⟩
  · rw [countAddNotAllowed, List.countP_eq_zero]
    intro o ho
    simpa using (h o ho).1
  · rw [countTerminal, List.countP_eq_zero]
    intro o ho
    simpa using (h o ho).2.1
  · rw [List.any_eq_false]
    intro o ho
    simp [(h o ho).2.2]

/-- `HFacts` for a flag-preserving, state-preserving result with neutral
outputs.  `hzr` says the result cannot have acquired an upstream handle
while Stopped. -/
theorem HFacts_of_neutral (s : Session) (s' : Session) (outs : List Output)
    (hst : s'.state = s.state) (hb : s'.buffering = s.buffering)
    (hin : s'.hasInRequest = s.hasInRequest)
    (ha : s'.addAllowed = s.addAllowed) (hd : s'.destroyed = s.destroyed)
    (hzr : SInv s → s'.state = PState.Stopped → s'.zhttpRequest = none)
    (h : ∀ o ∈ outs, NeutralOut o) :
    HFacts s s' outs := by
  obtain ⟨hc1, hc2, hc3⟩ := neutral_counts outs h
  refine ⟨?_, ?_, ?_, ?_, hd, hc2, hc3⟩
  · intro hi hstop
    have hs : s.state = PState.Stopped := hst.symm.trans hstop
    refine ⟨?_, ?_, hzr hi hstop⟩
    · rw [hb]
      exact (hi hs).1
    · rw [hin]
      exact (hi hs).2.1
  · intro _ hbb
    rw [hb] at hbb
    exact hbb
  · intro haa
    rw [ha] at haa
    exact haa
  · rw [hc1]
    exact Nat.zero_le _

/-- `abortSession` satisfies the bookkeeping facts when its pending outputs
are neutral. -/
theorem HFacts_abort (s : Session) (outs : List Output)
    (h : ∀ o ∈ outs, NeutralOut o) :
    HFacts s (abortSession s outs).1 (abortSession s outs).2 := by
  refine HFacts_of_neutral _ _ _ rfl rfl rfl rfl rfl ?_ ?_
  · intro hi hstop
    exact (hi hstop).2.2
  intro o ho
  rcases List.mem_append.mp ho with ho | ho
  · exact h o ho
  · rw [List.mem_singleton] at ho
    subst ho
    exact ⟨fun hh => Output.noConfusion hh, rfl, rfl⟩

/-- `rejectAll` satisfies the bookkeeping facts. -/
theorem HFacts_rejectAll (s : Session) (code : Nat) (reason message : String) :
    HFacts s (rejectAll s code reason message).1 (rejectAll s code reason message).2 := by
  unfold rejectAll
  split
  · refine HFacts_of_neutral _ _ _ rfl rfl rfl rfl rfl ?_ ?_
    · intro hi hstop
      exact (hi hstop).2.2
    intro o ho
    obtain ⟨x, hx, rfl⟩ := List.mem_map.mp ho
    exact ⟨fun hh => Output.noConfusion hh, rfl, rfl⟩
  · exact HFacts_abort s [] (by intro o ho; simp at ho)

/-- `cannotAcceptAll` satisfies the bookkeeping facts. -/
theorem HFacts_cannotAcceptAll (s : Session) :
    HFacts s (cannotAcceptAll s).1 (cannotAcceptAll s).2 := by
  unfold cannotAcceptAll
  split
  · refine HFacts_of_neutral _ _ _ rfl rfl rfl rfl rfl ?_ ?_
    · intro hi hstop
      exact (hi hstop).2.2
    intro o ho
    obtain ⟨x, hx, rfl⟩ := List.mem_map.mp ho
    exact ⟨fun hh => Output.noConfusion hh, rfl, rfl⟩
  · exact HFacts_abort s [] (by intro o ho; simp at ho)

/-- `destroyAll` satisfies the bookkeeping facts. -/
theorem HFacts_destroyAll (s : Session) :
    HFacts s (destroyAll s).1 (destroyAll s).2 := by
  unfold destroyAll
  split
  · split
    · refine HFacts_of_neutral _ _ _ rfl rfl rfl rfl rfl ?_ ?_
      · intro hi hstop
        exact (hi hstop).2.2
      intro o ho
      obtain ⟨x, hx, rfl⟩ := List.mem_map.mp ho
      exact ⟨fun hh => Output.noConfusion hh, rfl, rfl⟩
    · exact HFacts_abort s [] (by intro o ho; simp at ho)
  · exact HFacts_abort s [] (by intro o ho; simp at ho)

/-- `tryNextTarget` satisfies the bookkeeping facts. -/
theorem HFacts_tryNextTarget (s : Session) (fin : Bool)
    (hne : s.state ≠ PState.Stopped) :
    HFacts s (tryNextTarget s fin).1 (tryNextTarget s fin).2 := by
  unfold tryNextTarget
  split
  · dsimp only
    have hmarker : ∀ o ∈ [Output.calledTryNextTarget], NeutralOut o := by
      intro o ho
      rw [List.mem_singleton] at ho
      subst ho
      exact ⟨fun hh => Output.noConfusion hh, rfl, rfl⟩
    exact HFacts_comp
      (HFacts_of_neutral s s _ rfl rfl rfl rfl rfl
        (fun hi hstop => (hi hstop).2.2) hmarker)
      (HFacts_rejectAll s 502 "Bad Gateway" "Error while proxying to origin.")
  · dsimp only
    split <;> split <;>
    · refine HFacts_of_neutral _ _ _ rfl rfl rfl rfl rfl ?_ ?_
      · intro hi hstop
        exact absurd hstop hne
      intro o ho
      simp only [List.mem_append, List.mem_cons, List.mem_singleton,
        List.not_mem_nil, or_false] at ho
      casesm* _ ∨ _ <;> (subst o; exact ⟨fun hh => Output.noConfusion hh, rfl, rfl⟩)

/-- Like `HFacts_of_neutral`, but `buffering` may also have been switched
off, provided that cannot happen while Stopped. -/
theorem HFacts_of_flip (s s' : Session) (outs : List Output)
    (hst : s'.state = s.state)
    (hb : s'.buffering = true → s.buffering = true)
    (hSI : SInv s → s'.state = PState.Stopped →
      s'.buffering = true ∧ s'.zhttpRequest = none)
    (hin : s'.hasInRequest = s.hasInRequest)
    (ha : s'.addAllowed = true → s.addAllowed = true)
    (hd : s'.destroyed = s.destroyed)
    (h : ∀ o ∈ outs, NeutralOut o) :
    HFacts s s' outs := by
  obtain ⟨hc1, hc2, hc3⟩ := neutral_counts outs h
  refine ⟨?_, fun _ => hb, ha, ?_, hd, hc2, hc3⟩
  · intro hi hstop2
    refine ⟨(hSI hi hstop2).1, ?_, (hSI hi hstop2).2⟩
    rw [hin]
    exact (hi (hst.symm.trans hstop2)).2.1
  · rw [hc1]
    exact Nat.zero_le _

/-- `abortSession` applied after a flag-flipping intermediate state. -/
theorem HFacts_abort_flip (s s1 : Session) (outs : List Output)
    (hst : s1.state = s.state)
    (hb : s1.buffering = true → s.buffering = true)
    (hSI : SInv s → s1.state = PState.Stopped →
      s1.buffering = true ∧ s1.zhttpRequest = none)
    (hin : s1.hasInRequest = s.hasInRequest)
    (ha : s1.addAllowed = true → s.addAllowed = true)
    (hd : s1.destroyed = s.destroyed)
    (houts : ∀ o ∈ outs, NeutralOut o) :
    HFacts s (abortSession s1 outs).1 (abortSession s1 outs).2 := by
  apply HFacts_of_flip
  · exact hst
  · exact hb
  · exact hSI
  · exact hin
  · exact ha
  · exact hd
  · intro o ho
    rcases List.mem_append.mp ho with ho | ho
    · exact houts o ho
    · rw [List.mem_singleton] at ho
      subst ho
      exact ⟨fun hh => Output.noConfusion hh, rfl, rfl⟩

/-- A single `writeUpstreamBody` action is neutral. -/
theorem neutral_writeUpstream (h : Nat) (b : Bytes) :
    ∀ o ∈ [Output.writeUpstreamBody h b], NeutralOut o := by
  intro o ho
  rw [List.mem_singleton] at ho
  subst ho
  exact ⟨fun hh => Output.noConfusion hh, rfl, rfl⟩

/-- `tryRequestRead` satisfies the bookkeeping facts. -/
theorem HFacts_tryRequestRead (s : Session) (buf : Bytes) :
    HFacts s (tryRequestRead s buf).1 (tryRequestRead s buf).2 := by
  by_cases hin : s.hasInRequest = true
  case neg =>
    have hin' : s.hasInRequest = false := by simpa using hin
    simp [tryRequestRead, hin']
    exact HFacts_abort s [] (by intro o ho; simp at ho)
  case pos =>
    by_cases hbuf : buf = []
    · simp [tryRequestRead, hin, hbuf]
      exact HFacts_id s
    · by_cases hB : s.buffering = true
      · by_cases hcap : MAX_ACCEPT_REQUEST_BODY < s.requestBody.length + buf.length
        · cases hz : s.zhttpRequest with
          | some h =>
            simp [tryRequestRead, hin, hbuf, hB, hcap, hz]
            apply HFacts_of_flip
            · rfl
            · intro hbb
              exact absurd hbb (by simp)
            · intro hi hstop
              exact absurd (hi hstop).2.1 (by simp [hin])
            · exact hin.symm
            · exact fun hx => hx
            · rfl
            · exact neutral_writeUpstream h buf
          | none =>
            simp [tryRequestRead, hin, hbuf, hB, hcap, hz]
            apply HFacts_abort_flip
            · rfl
            · intro hbb
              exact absurd hbb (by simp)
            · intro hi hstop
              exact absurd (hi hstop).2.1 (by simp [hin])
            · exact hin.symm
            · exact fun hx => hx
            · rfl
            · intro o ho
              simp at ho
        · cases hz : s.zhttpRequest with
          | some h =>
            simp [tryRequestRead, hin, hbuf, hB, hcap, hz]
            apply HFacts_of_neutral
            · rfl
            · exact hB.symm
            · exact hin.symm
            · rfl
            · rfl
            · intro hi hstop
              exact absurd (hi hstop).2.1 (by simp [hin])
            · exact neutral_writeUpstream h buf
          | none =>
            simp [tryRequestRead, hin, hbuf, hB, hcap, hz]
            apply HFacts_abort_flip
            · rfl
            · intro _
              exact hB
            · intro hi hstop
              exact absurd (hi hstop).2.1 (by simp [hin])
            · exact hin.symm
            · exact fun hx => hx
            · rfl
            · intro o ho
              simp at ho
      · have hB' : s.buffering = false := by simpa using hB
        cases hz : s.zhttpRequest with
        | some h =>
          simp [tryRequestRead, hin, hbuf, hB', hz]
          apply HFacts_of_neutral
          · rfl
          · exact hB'.symm
          · exact hin.symm
          · rfl
          · rfl
          · intro hi hstop
            exact absurd (hi hstop).2.1 (by simp [hin])
          · exact neutral_writeUpstream h buf
        | none =>
          simp [tryRequestRead, hin, hbuf, hB', hz]
          apply HFacts_abort_flip
          · rfl
          · intro hbb
            exact absurd hbb (by simp [hB'])
          · intro hi hstop
            exact absurd (hi hstop).2.1 (by simp [hin])
          · first
            | rfl
            | exact hin.symm
          · exact fun hx => hx
          · rfl
          · intro o ho
            simp at ho

/-- Transport `HFacts` along an equality of output lists. -/
theorem HFacts_outs_congr {s s' : Session} {o o' : List Output}
    (h : HFacts s s' o) (he : o = o') : HFacts s s' o' := he ▸ h

/-- `checkIncomingResponseFinished` satisfies the bookkeeping facts. -/
theorem HFacts_checkIncoming (s : Session) (fin : Bool) :
    HFacts s (checkIncomingResponseFinished s fin).1
      (checkIncomingResponseFinished s fin).2 := by
  unfold checkIncomingResponseFinished
  split
  · split
    · exact HFacts_id s
    · split
      · exact HFacts_abort s [] (by intro o ho; simp at ho)
      · rename_i h heq
        dsimp only
        split
        · apply HFacts_of_neutral
          · rfl
          · rfl
          · rfl
          · rfl
          · rfl
          · intro _ _
            rfl
          · intro o ho
            rcases List.mem_append.mp ho with ho | ho
            · rw [List.mem_singleton] at ho
              subst ho
              exact ⟨fun hh => Output.noConfusion hh, rfl, rfl⟩
            · obtain ⟨x, hx, rfl⟩ := List.mem_map.mp ho
              exact ⟨fun hh => Output.noConfusion hh, rfl, rfl⟩
        · split
          · split
            · rename_i hall haA
              have haA' : s.addAllowed = true := haA
              refine ⟨?_, ?_, ?_, ?_, rfl, ?_, ?_⟩
              · intro hi hstop
                exact ⟨(hi hstop).1, (hi hstop).2.1, rfl⟩
              · intro _ hb
                exact hb
              · intro hcontra
                exact absurd hcontra (by simp)
              · simp [countAddNotAllowed, List.countP_append, List.countP_map,
                  Function.comp, haA']
              · simp [countTerminal, List.countP_append, List.countP_map,
                  Function.comp, isTerminalOut]
              · simp [List.any_append, List.any_map, Function.comp, isAcceptOut]
                intro x x1 hmem hresp hxeq
                subst hxeq
                rfl
            · apply HFacts_of_neutral
              · rfl
              · rfl
              · rfl
              · rfl
              · rfl
              · intro _ _
                rfl
              · intro o ho
                rcases List.mem_append.mp ho with ho | ho
                · rw [List.mem_singleton] at ho
                  subst ho
                  exact ⟨fun hh => Output.noConfusion hh, rfl, rfl⟩
                · obtain ⟨x, hx, rfl⟩ := List.mem_map.mp ho
                  exact ⟨fun hh => Output.noConfusion hh, rfl, rfl⟩
          · apply HFacts_abort_flip
            · rfl
            · intro hb
              exact hb
            · intro hi hstop
              exact ⟨(hi hstop).1, rfl⟩
            · rfl
            · exact fun hx => hx
            · rfl
            · intro o ho
              rw [List.mem_singleton] at ho
              subst ho
              exact ⟨fun hh => Output.noConfusion hh, rfl, rfl⟩
  · exact HFacts_id s


/-- `tryResponseRead` satisfies the bookkeeping facts. -/
theorem HFacts_tryResponseRead (s : Session) (buf : Bytes) (fin : Bool) :
    HFacts s (tryResponseRead s buf fin).1 (tryResponseRead s buf fin).2 := by
  have hread : ∀ hh : Nat,
      ∀ o ∈ [Output.readUpstreamBody hh MAX_STREAM_BUFFER], NeutralOut o := by
    intro hh o ho
    rw [List.mem_singleton] at ho
    subst ho
    exact ⟨fun hc => Output.noConfusion hc, rfl, rfl⟩
  unfold tryResponseRead
  split
  · exact HFacts_id s
  · split
    · exact HFacts_abort s [] (by intro o ho; simp at ho)
    · rename_i hnb h heq
      dsimp only
      split
      · split
        · split
          · refine HFacts_comp ?_
              (HFacts_rejectAll _ 502 "Bad Gateway" "GRIP instruct response too large.")
            apply HFacts_of_neutral
            · rfl
            · rfl
            · rfl
            · rfl
            · rfl
            · intro hi hstop
              exact (hi hstop).2.2
            · exact hread h
          · refine HFacts_comp ?_ (HFacts_checkIncoming _ fin)
            apply HFacts_of_neutral
            · rfl
            · rfl
            · rfl
            · rfl
            · rfl
            · intro hi hstop
              exact (hi hstop).2.2
            · exact hread h
        · -- Responding-side streaming: reduce the buffering cases first
          by_cases hB : s.buffering = true
          · by_cases hcap : MAX_INITIAL_BUFFER < s.responseBody.length + buf.length
            · simp only [hB, hcap, eq_self_iff_true, if_true, if_false]
              split
              · refine HFacts_comp ?_ (HFacts_checkIncoming _ fin)
                refine @HFacts_comp s s _ _ _ ?_ ?_
                · refine @HFacts_comp s s s _ _ ?_ ?_
                  · exact HFacts_of_neutral s s _ rfl rfl rfl rfl rfl
                      (fun hi hstop => (hi hstop).2.2) (hread h)
                  · refine HFacts_of_neutral s s _ rfl rfl rfl rfl rfl
                      (fun hi hstop => (hi hstop).2.2) ?_
                    intro o ho
                    obtain ⟨x, hx, rfl⟩ := List.mem_map.mp ho
                    exact ⟨fun hc => Output.noConfusion hc, rfl, rfl⟩
                refine ⟨?_, ?_, ?_, ?_, rfl, ?_, ?_⟩
                · intro hi hstop
                  have hzn := (hi hstop).2.2
                  rw [heq] at hzn
                  exact Option.noConfusion hzn
                · intro _ hb2
                  simp at hb2
                · intro ha2
                  simp at ha2
                · cases haA : s.addAllowed <;>
                    simp [countAddNotAllowed, haA]
                · cases haA : s.addAllowed <;>
                    simp [countTerminal, isTerminalOut, haA]
                · cases haA : s.addAllowed <;>
                    simp [isAcceptOut, haA]
              · apply HFacts_abort_flip
                · rfl
                · intro hb2
                  simp at hb2
                · intro hi hstop
                  have hzn := (hi hstop).2.2
                  rw [heq] at hzn
                  exact Option.noConfusion hzn
                · rfl
                · intro ha2
                  simp at ha2
                · rfl
                · exact hread h
            · simp only [hB, hcap, eq_self_iff_true, if_true, if_false]
              split
              · refine HFacts_comp ?_ (HFacts_checkIncoming _ fin)
                refine @HFacts_comp s s _ _ _ ?_ ?_
                · refine @HFacts_comp s s s _ _ ?_ ?_
                  · exact HFacts_of_neutral s s _ rfl rfl rfl rfl rfl
                      (fun hi hstop => (hi hstop).2.2) (hread h)
                  · refine HFacts_of_neutral s s _ rfl rfl rfl rfl rfl
                      (fun hi hstop => (hi hstop).2.2) ?_
                    intro o ho
                    obtain ⟨x, hx, rfl⟩ := List.mem_map.mp ho
                    exact ⟨fun hc => Output.noConfusion hc, rfl, rfl⟩
                apply HFacts_of_neutral
                · rfl
                · exact hB.symm
                · rfl
                · rfl
                · rfl
                · intro hi hstop
                  exact (hi hstop).2.2
                · intro o ho
                  simp at ho
              · apply HFacts_abort_flip
                · rfl
                · intro hb2
                  exact hB
                · intro hi hstop
                  have hzn := (hi hstop).2.2
                  rw [heq] at hzn
                  exact Option.noConfusion hzn
                · rfl
                · exact fun hx => hx
                · rfl
                · exact hread h
          · have hBf : s.buffering = false := by simpa using hB
            simp only [hBf, Bool.false_eq_true, if_false]
            split
            · refine HFacts_comp ?_ (HFacts_checkIncoming _ fin)
              refine @HFacts_comp s s _ _ _ ?_ ?_
              · refine @HFacts_comp s s s _ _ ?_ ?_
                · exact HFacts_of_neutral s s _ rfl rfl rfl rfl rfl
                    (fun hi hstop => (hi hstop).2.2) (hread h)
                · refine HFacts_of_neutral s s _ rfl rfl rfl rfl rfl
                    (fun hi hstop => (hi hstop).2.2) ?_
                  intro o ho
                  obtain ⟨x, hx, rfl⟩ := List.mem_map.mp ho
                  exact ⟨fun hc => Output.noConfusion hc, rfl, rfl⟩
              apply HFacts_of_neutral
              · rfl
              · exact hBf.symm
              · rfl
              · rfl
              · rfl
              · intro hi hstop
                exact (hi hstop).2.2
              · intro o ho
                simp at ho
            · apply HFacts_abort_flip
              · rfl
              · intro hb2
                simp at hb2
              · intro hi hstop
                have hzn := (hi hstop).2.2
                rw [heq] at hzn
                exact Option.noConfusion hzn
              · rfl
              · exact fun hx => hx
              · rfl
              · exact hread h
      · refine HFacts_comp ?_ (HFacts_checkIncoming _ fin)
        exact HFacts_of_neutral s s _ rfl rfl rfl rfl rfl
          (fun hi hstop => (hi hstop).2.2) (hread h)


/-- `HFacts` for a segment that ends in a state other than `Stopped`, with
flags only switching off and neutral outputs. -/
theorem HFacts_to_live (s s' : Session) (outs : List Output)
    (hst : s'.state ≠ PState.Stopped)
    (hb : s'.buffering = true → s.buffering = true)
    (ha : s'.addAllowed = true → s.addAllowed = true)
    (hd : s'.destroyed = s.destroyed)
    (h : ∀ o ∈ outs, NeutralOut o) :
    HFacts s s' outs := by
  obtain ⟨hc1, hc2, hc3⟩ := neutral_counts outs h
  refine ⟨?_, fun _ => hb, ha, ?_, hd, hc2, hc3⟩
  · intro hi hstop
    exact absurd hstop hst
  · rw [hc1]
    exact Nat.zero_le _

/-- `zhttpRequest_error` satisfies the bookkeeping facts. -/
theorem HFacts_zhttpError (s : Session) (e : ErrorCondition) (fin : Bool) :
    HFacts s (zhttpErrorHandler s e fin).1 (zhttpErrorHandler s e fin).2 := by
  unfold zhttpErrorHandler
  split
  · rename_i hst
    split
    · exact HFacts_rejectAll s 411 "Length Required" "Must provide Content-Length header."
    · split
      · rename_i hreq
        apply HFacts_tryNextTarget
        rw [hreq]
        intro hcontra
        exact PState.noConfusion hcontra
      · exact HFacts_abort s [] (by intro o ho; simp at ho)
    · split
      · rename_i hreq
        apply HFacts_tryNextTarget
        rw [hreq]
        intro hcontra
        exact PState.noConfusion hcontra
      · exact HFacts_abort s [] (by intro o ho; simp at ho)
    · split
      · rename_i hreq
        apply HFacts_tryNextTarget
        rw [hreq]
        intro hcontra
        exact PState.noConfusion hcontra
      · exact HFacts_abort s [] (by intro o ho; simp at ho)
    · exact HFacts_rejectAll s 502 "Bad Gateway" "Error while proxying to origin."
  · split
    · exact HFacts_destroyAll s
    · exact HFacts_id s

/-- `zhttpRequest_readyRead` satisfies the bookkeeping facts. -/
theorem HFacts_zhttpReadyRead (s : Session) (code : Int) (reason : String)
    (hdrs : List Header) (buf : Bytes) (fin : Bool) :
    HFacts s (zhttpReadyReadHandler s code reason hdrs buf fin).1
      (zhttpReadyReadHandler s code reason hdrs buf fin).2 := by
  unfold zhttpReadyReadHandler
  split
  · split
    · exact HFacts_abort s [] (by intro o ho; simp at ho)
    · rename_i hreq hx h heq
      dsimp only
      split
      · split
        · refine HFacts_comp ?_
            (HFacts_rejectAll _ 502 "Bad Gateway" "Request too large to accept GRIP instruct.")
          apply HFacts_of_neutral
          · rfl
          · rfl
          · rfl
          · rfl
          · rfl
          · intro hi hstop
            exact (hi hstop).2.2
          · intro o ho
            rw [List.mem_singleton] at ho
            subst ho
            exact ⟨fun hc => Output.noConfusion hc, rfl, rfl⟩
        · refine HFacts_comp ?_ (HFacts_checkIncoming _ fin)
          apply HFacts_to_live
          · intro hc
            exact PState.noConfusion hc
          · exact fun hx => hx
          · exact fun hx => hx
          · rfl
          · intro o ho
            rw [List.mem_singleton] at ho
            subst ho
            exact ⟨fun hc => Output.noConfusion hc, rfl, rfl⟩
      · refine HFacts_comp ?_ (HFacts_checkIncoming _ fin)
        apply HFacts_to_live
        · intro hc
          exact PState.noConfusion hc
        · exact fun hx => hx
        · exact fun hx => hx
        · rfl
        · intro o ho
          rcases List.mem_append.mp ho with ho | ho
          · rw [List.mem_singleton] at ho
            subst ho
            exact ⟨fun hc => Output.noConfusion hc, rfl, rfl⟩
          · obtain ⟨x, hx2, hmem⟩ := List.mem_flatMap.mp ho
            rcases List.mem_cons.mp hmem with rfl | hmem2
            · exact ⟨fun hc => Output.noConfusion hc, rfl, rfl⟩
            · split at hmem2
              · rw [List.mem_singleton] at hmem2
                subst hmem2
                exact ⟨fun hc => Output.noConfusion hc, rfl, rfl⟩
              · simp at hmem2
  · split
    · exact HFacts_tryResponseRead s buf fin
    · exact HFacts_abort s [] (by intro o ho; simp at ho)

/-- Prepending a silent preparatory segment to a handler call. -/
theorem HFacts_pre (s s1 : Session) (r : Session × List Output)
    (h0 : HFacts s s1 []) (h1 : HFacts s1 r.1 r.2) : HFacts s r.1 r.2 := by
  have hc := HFacts_comp h0 h1
  rw [List.nil_append] at hc
  exact hc

/-- `rs_bytesWritten` satisfies the bookkeeping facts. -/
theorem HFacts_rsBytesWritten (s : Session) (rid : String × String) (count : Nat)
    (buf : Bytes) (fin : Bool) :
    HFacts s (rsBytesWrittenHandler s rid count buf fin).1
      (rsBytesWrittenHandler s rid count buf fin).2 := by
  unfold rsBytesWrittenHandler
  split
  · exact HFacts_abort s [] (by intro o ho; simp at ho)
  · split
    · exact HFacts_abort s [] (by intro o ho; simp at ho)
    · dsimp only
      split
      · split
        · exact HFacts_tryResponseRead s buf fin
        · exact HFacts_id s
      · split
        · refine HFacts_pre s _ _ ?_ (HFacts_tryResponseRead _ buf fin)
          apply HFacts_of_neutral
          · rfl
          · rfl
          · rfl
          · rfl
          · rfl
          · intro hi hstop
            exact (hi hstop).2.2
          · intro o ho
            simp at ho
        · apply HFacts_of_neutral
          · rfl
          · rfl
          · rfl
          · rfl
          · rfl
          · intro hi hstop
            exact (hi hstop).2.2
          · intro o ho
            simp at ho

/-- `rs_errorResponding` satisfies the bookkeeping facts. -/
theorem HFacts_rsErrorResponding (s : Session) (rid : String × String) :
    HFacts s (rsErrorRespondingHandler s rid).1 (rsErrorRespondingHandler s rid).2 := by
  unfold rsErrorRespondingHandler
  split
  · exact HFacts_abort s [] (by intro o ho; simp at ho)
  · split
    · exact HFacts_abort s [] (by intro o ho; simp at ho)
    · dsimp only
      apply HFacts_of_neutral
      · rfl
      · rfl
      · rfl
      · rfl
      · rfl
      · intro hi hstop
        exact (hi hstop).2.2
      · intro o ho
        simp at ho

/-- `inRequest_readyRead` satisfies the bookkeeping facts. -/
theorem HFacts_inReadyRead (s : Session) (buf : Bytes) (inFin : Bool) :
    HFacts s (inReadyReadHandler s buf inFin).1 (inReadyReadHandler s buf inFin).2 := by
  unfold inReadyReadHandler
  dsimp only
  split
  · exact HFacts_tryRequestRead s buf
  · split
    · split
      · refine HFacts_comp (HFacts_tryRequestRead s buf) ?_
        apply HFacts_of_neutral
        · rfl
        · rfl
        · rfl
        · rfl
        · rfl
        · intro hi hstop
          exact (hi hstop).2.2
        · intro o ho
          rw [List.mem_singleton] at ho
          subst ho
          exact ⟨fun hc => Output.noConfusion hc, rfl, rfl⟩
      · refine HFacts_comp (HFacts_tryRequestRead s buf) ?_
        apply HFacts_of_flip
        · rfl
        · exact fun hx => hx
        · intro hi hstop
          exact ⟨(hi hstop).1, (hi hstop).2.2⟩
        · rfl
        · exact fun hx => hx
        · rfl
        · intro o ho
          rw [List.mem_singleton] at ho
          subst ho
          exact ⟨fun hc => Output.noConfusion hc, rfl, rfl⟩
    · exact HFacts_tryRequestRead s buf

/-- `inRequest_error` satisfies the bookkeeping facts. -/
theorem HFacts_inError (s : Session) :
    HFacts s (inErrorHandler s).1 (inErrorHandler s).2 :=
  HFacts_rejectAll s 500 "Internal Server Error" "Primary shared request failed."

/-- `zhttpRequest_bytesWritten` satisfies the bookkeeping facts. -/
theorem HFacts_zhttpBytesWritten (s : Session) (count : Nat) (buf : Bytes) :
    HFacts s (zhttpBytesWrittenHandler s count buf).1
      (zhttpBytesWrittenHandler s count buf).2 := by
  unfold zhttpBytesWrittenHandler
  dsimp only
  split
  · exact HFacts_abort s [] (by intro o ho; simp at ho)
  · split
    · refine HFacts_pre s _ _ ?_ (HFacts_tryRequestRead _ buf)
      apply HFacts_of_neutral
      · rfl
      · rfl
      · rfl
      · rfl
      · rfl
      · intro hi hstop
        exact (hi hstop).2.2
      · intro o ho
        simp at ho
    · apply HFacts_of_neutral
      · rfl
      · rfl
      · rfl
      · rfl
      · rfl
      · intro hi hstop
        exact (hi hstop).2.2
      · intro o ho
        simp at ho


/-- The header rewrites and body caps do not touch the state-machine flags. -/
theorem applyGripSig_proj (s : Session) (a b c : String) (p : Bool) :
    (applyGripSig s a b c p).state = s.state ∧
    (applyGripSig s a b c p).addAllowed = s.addAllowed ∧
    (applyGripSig s a b c p).destroyed = s.destroyed := by
  unfold applyGripSig
  repeat' split
  all_goals exact ⟨rfl, rfl, rfl⟩

/-- `applyXfp` does not touch the state-machine flags. -/
theorem applyXfp_proj (s : Session) :
    (applyXfp s).state = s.state ∧
    (applyXfp s).addAllowed = s.addAllowed ∧
    (applyXfp s).destroyed = s.destroyed := by
  unfold applyXfp
  repeat' split
  all_goals exact ⟨rfl, rfl, rfl⟩

/-- `applyXff` does not touch the state-machine flags. -/
theorem applyXff_proj (s : Session) (p : Bool) (peer : String) :
    (applyXff s p peer).state = s.state ∧
    (applyXff s p peer).addAllowed = s.addAllowed ∧
    (applyXff s p peer).destroyed = s.destroyed :=
  ⟨rfl, rfl, rfl⟩

/-- `attachShared` does not touch the state-machine flags. -/
theorem attachShared_proj (s : Session) (r : Bool) (b : Bytes) :
    (attachShared s r b).state = s.state ∧
    (attachShared s r b).addAllowed = s.addAllowed ∧
    (attachShared s r b).destroyed = s.destroyed := by
  unfold attachShared
  repeat' split
  all_goals exact ⟨rfl, rfl, rfl⟩

/-- `capRequestBody` does not touch state, `addAllowed` or `destroyed`. -/
theorem capRequestBody_proj (s : Session) :
    (capRequestBody s).state = s.state ∧
    (capRequestBody s).addAllowed = s.addAllowed ∧
    (capRequestBody s).destroyed = s.destroyed := by
  unfold capRequestBody
  repeat' split
  all_goals exact ⟨rfl, rfl, rfl⟩

/-- `addSetup` always leaves the session Requesting. -/
theorem addSetup_state (s2 : Session) (rs : RsAdd) (env : AddEnv)
    (entry : RouteEntry) : (addSetup s2 rs env entry).state = PState.Requesting := by
  unfold addSetup
  dsimp only
  rw [(capRequestBody_proj _).1]
  dsimp only
  rw [(attachShared_proj _ _ _).1]

/-- `addSetup` does not touch `addAllowed`. -/
theorem addSetup_addAllowed (s2 : Session) (rs : RsAdd) (env : AddEnv)
    (entry : RouteEntry) :
    (addSetup s2 rs env entry).addAllowed = s2.addAllowed := by
  unfold addSetup
  dsimp only
  rw [(capRequestBody_proj _).2.1]
  dsimp only
  rw [(attachShared_proj _ _ _).2.1]
  dsimp only
  rw [(applyXff_proj _ _ _).2.1, (applyXfp_proj _).2.1, (applyGripSig_proj _ _ _ _ _).2.1]

/-- `addSetup` does not touch `destroyed`. -/
theorem addSetup_destroyed (s2 : Session) (rs : RsAdd) (env : AddEnv)
    (entry : RouteEntry) :
    (addSetup s2 rs env entry).destroyed = s2.destroyed := by
  unfold addSetup
  dsimp only
  rw [(capRequestBody_proj _).2.2]
  dsimp only
  rw [(attachShared_proj _ _ _).2.2]
  dsimp only
  rw [(applyXff_proj _ _ _).2.2, (applyXfp_proj _).2.2, (applyGripSig_proj _ _ _ _ _).2.2]

/-- `add` satisfies the bookkeeping facts. -/
theorem HFacts_add (s : Session) (rs : RsAdd) (env : AddEnv) :
    HFacts s (addHandler s rs env).1 (addHandler s rs env).2 := by
  unfold addHandler
  split
  · exact HFacts_abort s [] (by intro o ho; simp at ho)
  · dsimp only
    split
    · rename_i hstop0
      split
      · refine HFacts_pre s _ _ ?_ (HFacts_rejectAll _ 502 "Bad Gateway" _)
        apply HFacts_of_neutral
        · rfl
        · rfl
        · rfl
        · rfl
        · rfl
        · intro hi hstop
          exact (hi hstop).2.2
        · intro o ho
          simp at ho
      · refine HFacts_pre s _ _ ?_ (HFacts_tryNextTarget _ env.inFinished ?_)
        · refine ⟨?_, ?_, ?_, ?_, ?_, rfl, rfl⟩
          · intro hi hstop
            exfalso
            rw [addSetup_state] at hstop
            exact PState.noConfusion hstop
          · intro hi hb
            exact (hi hstop0).1
          · intro hA
            rw [addSetup_addAllowed] at hA
            exact hA
          · exact Nat.zero_le _
          · rw [addSetup_destroyed]
        · intro hstop
          rw [addSetup_state] at hstop
          exact PState.noConfusion hstop
    · split
      · apply HFacts_of_neutral
        · rfl
        · rfl
        · rfl
        · rfl
        · rfl
        · intro hi hstop
          exact (hi hstop).2.2
        · intro o ho
          simp at ho
      · split
        · dsimp only
          apply HFacts_of_neutral
          · rfl
          · rfl
          · rfl
          · rfl
          · rfl
          · intro hi hstop
            exact (hi hstop).2.2
          · intro o ho
            rcases List.mem_cons.mp ho with rfl | h2
            · exact ⟨fun hc => Output.noConfusion hc, rfl, rfl⟩
            · split at h2
              · rw [List.mem_singleton] at h2
                subst h2
                exact ⟨fun hc => Output.noConfusion hc, rfl, rfl⟩
              · simp at h2
        · apply HFacts_of_neutral
          · rfl
          · rfl
          · rfl
          · rfl
          · rfl
          · intro hi hstop
            exact (hi hstop).2.2
          · intro o ho
            simp at ho


/-- The per-step bookkeeping: like `HFacts`, but `destroyed` may switch on,
and the terminal-signal count is tied to that switch. -/
def StepFacts (s s' : Session) (outs : List Output) : Prop :=
  (SInv s → SInv s') ∧
  (SInv s → s'.buffering = true → s.buffering = true) ∧
  (s'.addAllowed = true → s.addAllowed = true) ∧
  countAddNotAllowed outs ≤ (if s.addAllowed = true ∧ s'.addAllowed = false then 1 else 0) ∧
  (s'.destroyed = false → s.destroyed = false) ∧
  (s'.destroyed = false → countTerminal outs = 0) ∧
  countTerminal outs ≤ 1

/-- A handler satisfying `HFacts` satisfies the per-step bookkeeping. -/
theorem StepFacts_of_HFacts {s s' : Session} {outs : List Output}
    (h : HFacts s s' outs) : StepFacts s s' outs := by
  obtain ⟨i, b, a, c, d, t, x⟩ := h
  refine ⟨i, b, a, c, ?_, fun _ => t, ?_⟩
  · intro h2
    rw [← d]
    exact h2
  · rw [t]
    exact Nat.zero_le 1

/-- `rs_finished` satisfies the per-step bookkeeping: it emits
`finishedByPassthrough` exactly when it removes the last client entry and
turns `destroyed` on. -/
theorem StepFacts_rsFinished (s : Session) (rid : String × String) :
    StepFacts s (rsFinishedHandler s rid).1 (rsFinishedHandler s rid).2 := by
  unfold rsFinishedHandler
  split
  · exact StepFacts_of_HFacts (HFacts_abort s [] (by intro o ho; simp at ho))
  · dsimp only
    split
    · refine ⟨fun hi => hi, fun _ hb => hb, fun ha => ha, ?_, ?_, ?_, ?_⟩
      · exact Nat.zero_le _
      · intro h
        exact Bool.noConfusion h
      · intro h
        exact Bool.noConfusion h
      · exact Nat.le_refl 1
    · refine ⟨fun hi => hi, fun _ hb => hb, fun ha => ha, ?_, fun h => h, fun _ => rfl, ?_⟩
      · exact Nat.zero_le _
      · exact Nat.zero_le 1

/-- `rs_paused` satisfies the per-step bookkeeping: it emits
`finishedForAccept` exactly when the last client entry pauses and it turns
`destroyed` on. -/
theorem StepFacts_rsPaused (s : Session) (rid : String × String) :
    StepFacts s (rsPausedHandler s rid).1 (rsPausedHandler s rid).2 := by
  unfold rsPausedHandler
  split
  · exact StepFacts_of_HFacts (HFacts_abort s [] (by intro o ho; simp at ho))
  · split
    · exact StepFacts_of_HFacts (HFacts_abort s [] (by intro o ho; simp at ho))
    · dsimp only
      split
      · refine ⟨fun hi => hi, fun _ hb => hb, fun ha => ha, ?_, ?_, ?_, ?_⟩
        · exact Nat.zero_le _
        · intro h
          exact Bool.noConfusion h
        · intro h
          exact Bool.noConfusion h
        · exact Nat.le_refl 1
      · exact StepFacts_of_HFacts (HFacts_of_neutral _ _ _ rfl rfl rfl rfl rfl
          (fun hi hstop => (hi hstop).2.2) (by intro o ho; simp at ho))

/-- Every reactor step satisfies the per-step bookkeeping. -/
theorem step_facts (s : Session) (ev : Event) :
    StepFacts s (step s ev).1 (step s ev).2 := by
  unfold step
  split
  · exact StepFacts_of_HFacts (HFacts_id s)
  · cases ev
    · exact StepFacts_of_HFacts (HFacts_add s _ _)
    · exact StepFacts_of_HFacts (HFacts_inReadyRead s _ _)
    · exact StepFacts_of_HFacts (HFacts_inError s)
    · exact StepFacts_of_HFacts (HFacts_zhttpReadyRead s _ _ _ _ _)
    · exact StepFacts_of_HFacts (HFacts_zhttpBytesWritten s _ _)
    · exact StepFacts_of_HFacts (HFacts_zhttpError s _ _)
    · exact StepFacts_of_HFacts (HFacts_rsBytesWritten s _ _ _ _)
    · exact StepFacts_rsFinished s _
    · exact StepFacts_rsPaused s _
    · exact StepFacts_of_HFacts (HFacts_rsErrorResponding s _)
    · exact StepFacts_of_HFacts (HFacts_cannotAcceptAll s)
    · exact StepFacts_of_HFacts (HFacts_of_neutral s _ [] rfl rfl rfl rfl rfl
        (fun hi hstop => (hi hstop).2.2) (by intro o ho; simp at ho))

/-- One step of `run`, as an equation. -/
theorem run_cons (s : Session) (ev : Event) (evs : List Event) :
    run s (ev :: evs) =
      ((run (step s ev).1 evs).1, (step s ev).2 ++ (run (step s ev).1 evs).2) := rfl

/-- A destroyed session ignores an event. -/
theorem step_destroyed (s : Session) (ev : Event) (hd : s.destroyed = true) :
    step s ev = (s, []) := by
  unfold step
  rw [hd]
  simp

/-- A destroyed session ignores every further event. -/
theorem run_destroyed (evs : List Event) (s : Session) (hd : s.destroyed = true) :
    run s evs = (s, []) := by
  induction evs with
  | nil => rfl
  | cons ev evs ih =>
    rw [run_cons, step_destroyed s ev hd]
    simp [ih]

/-- Over a whole execution: no terminal signal is emitted while the session
survives, and at most one is emitted ever. -/
theorem run_terminal (evs : List Event) (s : Session) :
    ((run s evs).1.destroyed = false →
      s.destroyed = false ∧ countTerminal (run s evs).2 = 0) ∧
    countTerminal (run s evs).2 ≤ 1 := by
  induction evs generalizing s with
  | nil =>
    refine ⟨fun h => ⟨h, rfl⟩, ?_⟩
    rw [show countTerminal (run s []).2 = 0 from rfl]
    exact Nat.zero_le 1
  | cons ev evs ih =>
    obtain ⟨-, -, -, -, f5, f6, f7⟩ := step_facts s ev
    obtain ⟨g1, g2⟩ := ih (step s ev).1
    rw [run_cons]
    dsimp only
    constructor
    · intro hfd
      obtain ⟨h1, h2⟩ := g1 hfd
      refine ⟨f5 h1, ?_⟩
      have e1 := f6 h1
      rw [countTerminal, List.countP_append]
      rw [countTerminal] at e1 h2
      omega
    · rw [countTerminal, List.countP_append]
      by_cases hdd : (step s ev).1.destroyed = true
      · rw [run_destroyed evs _ hdd]
        rw [countTerminal] at f7
        simpa using f7
      · have hdf : (step s ev).1.destroyed = false := by
          cases h2 : (step s ev).1.destroyed
          · rfl
          · exact absurd h2 hdd
        have e1 := f6 hdf
        rw [countTerminal] at e1 g2
        omega

/-- Over a whole execution from a state satisfying the reachability
invariant: the invariant is preserved, `buffering` and `addAllowed` are
monotone (never switch back on) and `addNotAllowed` is emitted at most on
the flip of `addAllowed`. -/
theorem run_flags (evs : List Event) (s : Session) (hI : SInv s) :
    SInv (run s evs).1 ∧
    ((run s evs).1.buffering = true → s.buffering = true) ∧
    ((run s evs).1.addAllowed = true → s.addAllowed = true) ∧
    countAddNotAllowed (run s evs).2 ≤
      (if s.addAllowed = true ∧ (run s evs).1.addAllowed = false then 1 else 0) := by
  induction evs generalizing s with
  | nil =>
    refine ⟨hI, fun h => h, fun h => h, ?_⟩
    rw [show countAddNotAllowed (run s []).2 = 0 from rfl]
    exact Nat.zero_le _
  | cons ev evs ih =>
    obtain ⟨f1, f2, f3, f4, -, -, -⟩ := step_facts s ev
    obtain ⟨g1, g2, g3, g4⟩ := ih (step s ev).1 (f1 hI)
    rw [run_cons]
    dsimp only
    refine ⟨g1, ?_, fun h => f3 (g3 h), ?_⟩
    · intro hb
      exact f2 hI (g2 hb)
    · rw [countAddNotAllowed, List.countP_append]
      rw [countAddNotAllowed] at f4 g4
      exact flip_compose s.addAllowed (step s ev).1.addAllowed
        (run (step s ev).1 evs).1.addAllowed _ _ f3 g3 f4 g4


/-- Whether an output is the `finishedByPassthrough` signal. -/
def isPassOut : Output → Bool
  | .finishedByPassthrough => true
  | _ => false

/-- The terminal count splits into the passthrough count plus the accept
count: the two classifiers partition `isTerminalOut`. -/
theorem countTerminal_split (outs : List Output) :
    countTerminal outs = outs.countP isPassOut + outs.countP isAcceptOut := by
  induction outs with
  | nil => rfl
  | cons o rest ih =>
    rw [countTerminal, List.countP_cons, List.countP_cons, List.countP_cons]
    rw [countTerminal] at ih
    cases o <;> simp [isPassOut, isAcceptOut, isTerminalOut, ih] <;> omega

/-- C5 counterexample: a complete GRIP-handoff execution reaches the
destroyed (terminal) state without ever emitting `addNotAllowed`, and no
further event can make the finished session emit one — so `addNotAllowed`
is not emitted "exactly once" per session. -/
theorem C5_counterexample :
    (run plainSession handoffEvents).1.destroyed = true ∧
    countAddNotAllowed (run plainSession handoffEvents).2 = 0 ∧
    ∀ evs, countAddNotAllowed (run (run plainSession handoffEvents).1 evs).2 = 0 := by
  refine ⟨by decide, by decide, ?_⟩
  intro evs
  rw [run_destroyed evs _ (by decide)]
  rfl

/-- C5 (amended): over every execution from a state satisfying the
reachability invariant, `buffering` never switches back on once off
(instantiating the start state at any intermediate state of a longer trace
gives monotonicity along the whole trace), neither does `addAllowed`, and
`addNotAllowed` is emitted AT MOST once — not exactly once. -/
theorem C5_flags_monotone_addNotAllowed_at_most_once (s : Session)
    (evs : List Event) (hI : SInv s) :
    ((run s evs).1.buffering = true → s.buffering = true) ∧
    ((run s evs).1.addAllowed = true → s.addAllowed = true) ∧
    countAddNotAllowed (run s evs).2 ≤ 1 := by
  obtain ⟨-, h2, h3, h4⟩ := run_flags evs s hI
  refine ⟨h2, h3, le_trans h4 ?_⟩
  split
  · exact Nat.le_refl 1
  · exact Nat.zero_le 1

theorem C5_witness :
    ((run plainSession handoffEvents).1.buffering = true →
      plainSession.buffering = true) ∧
    ((run plainSession handoffEvents).1.addAllowed = true →
      plainSession.addAllowed = true) ∧
    countAddNotAllowed (run plainSession handoffEvents).2 ≤ 1 :=
  C5_flags_monotone_addNotAllowed_at_most_once plainSession handoffEvents
    (fun _ => by decide)

/-- C7: over every execution, the number of `finishedByPassthrough`
emissions plus the number of `finishedForAccept` emissions is at most one:
each terminal signal fires at most once and the two are mutually
exclusive. -/
theorem C7_terminal_signals_at_most_once (s : Session) (evs : List Event) :
    (run s evs).2.countP isPassOut + (run s evs).2.countP isAcceptOut ≤ 1 := by
  rw [← countTerminal_split]
  exact (run_terminal evs s).2


/-- An alive (not aborted, not destroyed) session dispatches an event to
the matching slot. -/
theorem step_live (s : Session) (ev : Event) (hA : s.aborted = false)
    (hD : s.destroyed = false) :
    step s ev = (match ev with
      | .add rs env => addHandler s rs env
      | .inReadyRead buf fin => inReadyReadHandler s buf fin
      | .inError => inErrorHandler s
      | .zhttpReadyRead c r hs b f => zhttpReadyReadHandler s c r hs b f
      | .zhttpBytesWritten c b => zhttpBytesWrittenHandler s c b
      | .zhttpError e f => zhttpErrorHandler s e f
      | .rsBytesWritten rid c b f => rsBytesWrittenHandler s rid c b f
      | .rsFinished rid => rsFinishedHandler s rid
      | .rsPaused rid => rsPausedHandler s rid
      | .rsErrorResponding rid => rsErrorRespondingHandler s rid
      | .cannotAccept => cannotAcceptAll s
      | .setInspectData d => ({ s with haveInspectData := true, idata := d }, [])) := by
  unfold step
  rw [hA, hD]
  rfl

/-- `rs_finished` never emits an accept output. -/
theorem rsFinished_no_accept (s : Session) (rid : String × String) :
    (rsFinishedHandler s rid).2.any isAcceptOut = false := by
  unfold rsFinishedHandler
  split
  · rfl
  · dsimp only
    split
    · rfl
    · rfl

/-- C2: `finishedForAccept` is emitted exactly when the last attached client
entry reaches Paused.  A live step emits an accept output only on an
`rsPaused` event for a Pausing entry whose marking leaves every entry
Paused; and on exactly that event the step emits one `finishedForAccept`
whose record carries the full buffered request and response bodies (moved
out of the session), the channel prefix and, via `mkAcceptRequest`, one
sub-record per attached client with that client's request-id, https flag,
peer address, auto-cross-origin flag, JSONP callback and server-side
protocol state. -/
theorem C2_handoff_exact (s : Session) (ev : Event) (hA : s.aborted = false)
    (hD : s.destroyed = false) :
    ((step s ev).2.any isAcceptOut = true →
      ∃ rid si, ev = Event.rsPaused rid ∧
        findItem s.sessionItems rid = some si ∧
        si.state = SIState.Pausing ∧
        (updateItem s.sessionItems rid markPaused).all
          (fun x => decide (x.state = SIState.Paused)) = true) ∧
    (∀ rid si, ev = Event.rsPaused rid →
      findItem s.sessionItems rid = some si →
      si.state = SIState.Pausing →
      (updateItem s.sessionItems rid markPaused).all
        (fun x => decide (x.state = SIState.Paused)) = true →
      step s ev =
        ({ s with sessionItems := [], requestBody := [], responseBody := [],
                  destroyed := true },
         [Output.finishedForAccept
           { requests := (updateItem s.sessionItems rid markPaused).map mkAcceptRequest
             requestData := { s.requestData with body := s.requestBody }
             haveResponse := true
             response := { s.responseData with body := s.responseBody }
             chanPfx := s.chanPfx
             haveInspectData := false
             inspectData := 0 }])) := by
  constructor
  · intro hacc
    rw [step_live s ev hA hD] at hacc
    cases ev
    · dsimp only at hacc
      rw [(HFacts_add s _ _).2.2.2.2.2.2] at hacc
      exact Bool.noConfusion hacc
    · dsimp only at hacc
      rw [(HFacts_inReadyRead s _ _).2.2.2.2.2.2] at hacc
      exact Bool.noConfusion hacc
    · dsimp only at hacc
      rw [(HFacts_inError s).2.2.2.2.2.2] at hacc
      exact Bool.noConfusion hacc
    · dsimp only at hacc
      rw [(HFacts_zhttpReadyRead s _ _ _ _ _).2.2.2.2.2.2] at hacc
      exact Bool.noConfusion hacc
    · dsimp only at hacc
      rw [(HFacts_zhttpBytesWritten s _ _).2.2.2.2.2.2] at hacc
      exact Bool.noConfusion hacc
    · dsimp only at hacc
      rw [(HFacts_zhttpError s _ _).2.2.2.2.2.2] at hacc
      exact Bool.noConfusion hacc
    · dsimp only at hacc
      rw [(HFacts_rsBytesWritten s _ _ _ _).2.2.2.2.2.2] at hacc
      exact Bool.noConfusion hacc
    · dsimp only at hacc
      rw [rsFinished_no_accept] at hacc
      exact Bool.noConfusion hacc
    · rename_i rid
      dsimp only at hacc
      unfold rsPausedHandler at hacc
      split at hacc
      · exact Bool.noConfusion hacc
      · rename_i si hfind
        split at hacc
        · exact Bool.noConfusion hacc
        · rename_i hnp
          dsimp only at hacc
          split at hacc
          · rename_i hall
            exact ⟨rid, si, rfl, hfind, not_not.mp hnp, hall⟩
          · exact Bool.noConfusion hacc
    · dsimp only at hacc
      rw [(HFacts_rsErrorResponding s _).2.2.2.2.2.2] at hacc
      exact Bool.noConfusion hacc
    · dsimp only at hacc
      rw [(HFacts_cannotAcceptAll s).2.2.2.2.2.2] at hacc
      exact Bool.noConfusion hacc
    · dsimp only at hacc
      exact Bool.noConfusion hacc
  · intro rid si hev hfind hP hall
    subst hev
    rw [step_live s _ hA hD]
    dsimp only
    unfold rsPausedHandler
    rw [hfind]
    dsimp only
    rw [if_neg (fun hne => hne hP)]
    rw [if_pos hall]

/-- A single client entry that has been asked to pause. -/
def pausingItem : SessionItem :=
  { info := clientA, state := SIState.Pausing, bytesToWrite := 0 }

/-- An accepting session whose only client entry is Pausing. -/
def pausingSession : Session :=
  { plainSession with state := PState.Accepting, sessionItems := [pausingItem] }

theorem C2_witness :
    step pausingSession (Event.rsPaused ("zone", "A")) =
      ({ pausingSession with sessionItems := [], requestBody := [], responseBody := [],
                             destroyed := true },
       [Output.finishedForAccept
         { requests := (updateItem pausingSession.sessionItems ("zone", "A")
             markPaused).map mkAcceptRequest
           requestData := { pausingSession.requestData with body := pausingSession.requestBody }
           haveResponse := true
           response := { pausingSession.responseData with body := pausingSession.responseBody }
           chanPfx := pausingSession.chanPfx
           haveInspectData := false
           inspectData := 0 }]) :=
  (C2_handoff_exact pausingSession (Event.rsPaused ("zone", "A")) rfl rfl).2
    ("zone", "A") pausingItem rfl (by decide) rfl (by decide)

/-- A GRIP-handoff execution in which the inspect data was supplied before
the first client attached. -/
def inspectHandoffEvents : List Event :=
  Event.setInspectData 7 :: handoffEvents

/-- C8: the session stores the data handed to `setInspectData` and still
holds it at handoff time, a handoff does occur, yet every emitted
`AcceptData` carries no inspect data — `rs_paused` builds the record
without ever consulting the stored `idata`. -/
theorem C8_inspect_data_not_forwarded :
    (run plainSession inspectHandoffEvents).1.haveInspectData = true ∧
    (run plainSession inspectHandoffEvents).1.idata = 7 ∧
    (run plainSession inspectHandoffEvents).2.any isAcceptOut = true ∧
    ((run plainSession inspectHandoffEvents).2.all (fun o =>
      match o with
      | Output.finishedForAccept ad => !ad.haveInspectData && ad.inspectData == 0
      | _ => true)) = true := by
  refine ⟨by decide, by decide, by decide, by decide⟩

end ProxySessionModel
